import Mathlib

/-!
# ExoCAL front end: submission, polling and completion

A shallow embedding of `src/App.js` (the `App` component): the React state
cells become the fields of `AppState`, every handler becomes a pure function
on that record, and every suspension point (`await`, `setTimeout`,
`requestAnimationFrame`) becomes an event of a small-step machine.  Effects
that leave the component (network requests, timers, navigation, the file
save) are appended to a log, so that statements of the form "no request is
issued" are statements about that log.
-/

namespace ExoCAL

/-! ## JavaScript helpers -/

/-- The JavaScript test `s.startsWith(p)`, on the characters of both strings. -/
def jsStartsWith (s p : String) : Bool :=
  p.data.isPrefixOf s.data

/-- Whether the character list `p` occurs in `s` as a contiguous block. -/
def occursIn (p : List Char) : List Char → Bool
  | [] => p.isEmpty
  | c :: cs => p.isPrefixOf (c :: cs) || occursIn p cs

/-- The JavaScript test `s.includes(p)`. -/
def jsIncludes (s p : String) : Bool :=
  occursIn p.data s.data

/-- The JavaScript expression `x || d` for an optional string `x`: a missing
value and the empty string are both falsy. -/
def strOr (x : Option String) (d : String) : String :=
  match x with
  | some m => if m = "" then d else m
  | none => d

/-- The characters `parseInt` skips at the start of its argument
(ECMAScript `StrWhiteSpaceChar`: white space and line terminators). -/
def isStrWhiteSpaceChar (c : Char) : Bool :=
  let n := c.toNat
  n = 9 || n = 10 || n = 11 || n = 12 || n = 13 || n = 32 || n = 160 ||
  n = 5760 || (8192 ≤ n && n ≤ 8202) || n = 8232 || n = 8233 ||
  n = 8239 || n = 8287 || n = 12288 || n = 65279

/-- The value of a character read as a digit in some radix up to 36. -/
def digitValue (c : Char) : Option Nat :=
  let n := c.toNat
  if 48 ≤ n ∧ n ≤ 57 then some (n - 48)
  else if 97 ≤ n ∧ n ≤ 122 then some (n - 87)
  else if 65 ≤ n ∧ n ≤ 90 then some (n - 55)
  else none

/-- The longest run of radix-`R` digits at the start of a character list. -/
def takeDigits (R : Nat) : List Char → List Nat
  | [] => []
  | c :: cs =>
    match digitValue c with
    | some d => if d < R then d :: takeDigits R cs else []
    | none => []

/-- The number written by a list of radix-`R` digits. -/
def digitsValue (R : Nat) (ds : List Nat) : Nat :=
  ds.foldl (fun acc d => acc * R + d) 0

/-- The sign step of `parseInt`: a leading `-` or `+` is removed and a `-`
is remembered. -/
def splitSign : List Char → Bool × List Char
  | '-' :: r => (true, r)
  | '+' :: r => (false, r)
  | cs => (false, cs)

/-- The radix step of `parseInt(s)` without a radix argument: radix 16 after
`0x` or `0X`, radix 10 otherwise. -/
def splitRadix : List Char → Nat × List Char
  | '0' :: 'x' :: r => (16, r)
  | '0' :: 'X' :: r => (16, r)
  | cs => (10, cs)

/-- A JavaScript Number that is not `NaN` and has no fractional part: a
finite double whose value is the integer `n`, or an infinity.  These are the
values `parseInt` returns besides `NaN`; `-0` is `finite 0`. -/
inductive JsNumber where
  | finite (n : Int)
  | infinity (negative : Bool)
deriving DecidableEq, Repr

instance (n : Nat) : OfNat JsNumber n :=
  ⟨.finite n⟩

instance : Neg JsNumber :=
  ⟨fun x =>
    match x with
    | .finite n => .finite (-n)
    | .infinity negative => .infinity (!negative)⟩

/-- The number of binary digits of a positive natural number. -/
def bitLength (m : Nat) : Nat :=
  (Nat.toDigits 2 m).length

/-- The Number value of a natural number: the number itself below `2^53`,
otherwise the nearest number with 53 significant binary digits, a tie going
to the even one; `none` is infinity, which is the value when the rounded
number has more than 1024 binary digits, that is from `2^1024` on. -/
def toDouble (m : Nat) : Option Nat :=
  if m < 2 ^ 53 then some m
  else
    let e := bitLength m - 53
    let q := m / 2 ^ e
    let r := m % 2 ^ e
    let q1 := if 2 ^ e < 2 * r ∨ (2 * r = 2 ^ e ∧ q % 2 = 1) then q + 1 else q
    if bitLength (q1 * 2 ^ e) ≤ 1024 then some (q1 * 2 ^ e) else none

/-- The JavaScript builtin `parseInt(s)` with one argument.  `none` is `NaN`.
The digits are read as a mathematical integer and the result is its Number
value: the nearest double, or an infinity.  (For more than 20 significant
decimal digits the language lets an engine read the later digits as zeros;
V8 does not, and neither does this definition.) -/
def parseInt (s : String) : Option JsNumber :=
  let body := s.data.dropWhile isStrWhiteSpaceChar
  let signed := splitSign body
  let based := splitRadix signed.2
  let digits := takeDigits based.1 based.2
  if digits.isEmpty then none
  else
    match toDouble (digitsValue based.1 digits) with
    | some v => if signed.1 then some (.finite (-(v : Int))) else some (.finite (v : Int))
    | none => some (.infinity signed.1)

/-- The JavaScript expression `x || d` for a number `x`: `NaN` and `0` are
falsy. -/
def numOr (x : Option JsNumber) (d : JsNumber) : JsNumber :=
  match x with
  | some n => if n = 0 then d else n
  | none => d

/-- The search of `Number::toString` for the shortest decimal: with `D` the
number of decimal digits of the double `m`, the first `k` from the given one
on for which a number of `k` digits followed by zeros has the Number value
`m`; of two such numbers the one nearer to `m`, and on a tie the one whose
digits end in an even digit. -/
def shortestFrom (m D : Nat) : Nat → Nat → Nat
  | 0, _ => m
  | fuel + 1, k =>
    let p := 10 ^ (D - k)
    let lo := m / p
    let okLo := decide (toDouble (lo * p) = some m)
    let okHi := decide (toDouble ((lo + 1) * p) = some m)
    if okLo && okHi then
      if m - lo * p < (lo + 1) * p - m then lo * p
      else if (lo + 1) * p - m < m - lo * p then (lo + 1) * p
      else if lo % 2 = 0 then lo * p else (lo + 1) * p
    else if okLo then lo * p
    else if okHi then (lo + 1) * p
    else shortestFrom m D fuel (k + 1)

/-- The decimal `Number::toString` prints for the positive double `m`: the
number with the fewest significant digits whose Number value is `m`. -/
def shortestDecimal (m : Nat) : Nat :=
  shortestFrom m (Nat.toDigits 10 m).length (Nat.toDigits 10 m).length 1

/-- The text of a positive integer as `Number::toString` lays it out: all
its digits up to 21 of them, and from 22 digits on the significant digits
with a point after the first, `e+` and the exponent. -/
def layoutDecimal (v : Nat) : String :=
  let ds := Nat.toDigits 10 v
  if ds.length ≤ 21 then String.mk ds
  else
    match (ds.reverse.dropWhile (fun c => c = '0')).reverse with
    | [] => String.mk ds
    | d :: rest =>
      String.mk (d :: (if rest.isEmpty then [] else '.' :: rest)) ++ "e+"
        ++ String.mk (Nat.toDigits 10 (ds.length - 1))

/-- The text of a number in a template literal (`Number::toString` in
radix 10). -/
def numberToString (x : JsNumber) : String :=
  match x with
  | .infinity false => "Infinity"
  | .infinity true => "-Infinity"
  | .finite n =>
    if n = 0 then "0"
    else if n < 0 then "-" ++ layoutDecimal (shortestDecimal n.natAbs)
    else layoutDecimal (shortestDecimal n.natAbs)

/-! ## Data model -/

/-- A file handle chosen in a file input. -/
structure File where
  name : String
  content : String
deriving DecidableEq, Repr

/-- The three input slots of the upload dialog. -/
inductive Slot where
  | koi
  | toi
  | k2
deriving DecidableEq, Repr

/-- The value of the `progress` field of a status response. -/
structure Progress where
  dataset : String
  percent : Rat
  message : String
  last_target : Option String
deriving DecidableEq, Repr

/-- The record stored by `setJobData`. -/
structure JobData where
  job_id : String
  status_url : String
  download_url : String
deriving DecidableEq, Repr

/-- The state cells of `App` (one field per `useState`), together with
`hideTimer`, which tells whether `hideTimerRef.current` holds a timer. -/
structure AppState where
  isModalMounted : Bool
  isModalVisible : Bool
  koiFile : Option File
  toiFile : Option File
  k2File : Option File
  useDemoKoi : Bool
  useDemoToi : Bool
  useDemoK2 : Bool
  showErrors : Bool
  shakeSubmit : Bool
  isSubmitting : Bool
  submitError : String
  isLoading : Bool
  jobData : Option JobData
  progress : Option Progress
  targetLimits : JsNumber
  seed : JsNumber
  showResults : Bool
  hideTimer : Bool
deriving DecidableEq, Repr

/-- The initial values given to `useState` and `useRef`. -/
def AppState.initial : AppState where
  isModalMounted := false
  isModalVisible := false
  koiFile := none
  toiFile := none
  k2File := none
  useDemoKoi := false
  useDemoToi := false
  useDemoK2 := false
  showErrors := false
  shakeSubmit := false
  isSubmitting := false
  submitError := ""
  isLoading := false
  jobData := none
  progress := none
  targetLimits := 50
  seed := 7
  showResults := false
  hideTimer := false

/-- One value appended to the `FormData` body. -/
inductive FormValue where
  | file (f : File)
  | text (s : String)
deriving DecidableEq, Repr

/-- The callbacks handed to `setTimeout`. -/
inductive TimerKind where
  | shake
  | hideModal
  | poll
deriving DecidableEq, Repr

/-- What the component does to the outside world. -/
inductive Effect where
  | post (url : String) (body : List (String × FormValue))
  | getStatus (url : String)
  | getDownload (url : String)
  | saveBlob (filename : String)
  | navigate (url : String)
  | setTimeout (callback : TimerKind) (ms : Nat)
  | clearTimeout (callback : TimerKind)
  | requestAnimationFrame
  | removeEventListener
deriving DecidableEq, Repr

/-- Whether an effect is a network request. -/
def Effect.isRequest : Effect → Bool
  | .post _ _ => true
  | .getStatus _ => true
  | .getDownload _ => true
  | _ => false

/-- Whether an effect is a status request. -/
def Effect.isStatusRequest : Effect → Bool
  | .getStatus _ => true
  | _ => false

/-- Whether an effect is a download request. -/
def Effect.isDownloadRequest : Effect → Bool
  | .getDownload _ => true
  | _ => false

/-- The number of status requests in a log. -/
def statusRequests (log : List Effect) : Nat :=
  log.countP Effect.isStatusRequest

/-- The number of download requests in a log. -/
def downloadRequests (log : List Effect) : Nat :=
  log.countP Effect.isDownloadRequest

/-- The number of network requests of any kind in a log. -/
def networkRequests (log : List Effect) : Nat :=
  log.countP Effect.isRequest

/-! ## Dialog handlers -/

/-- The state setter of a slot's file cell (`setKoiFile`, `setToiFile`,
`setK2File`). -/
def setFile (slot : Slot) (f : Option File) (st : AppState) : AppState :=
  match slot with
  | .koi => { st with koiFile := f }
  | .toi => { st with toiFile := f }
  | .k2 => { st with k2File := f }

/-- The state setter of a slot's demo cell (`setUseDemoKoi`, `setUseDemoToi`,
`setUseDemoK2`). -/
def setUseDemo (slot : Slot) (b : Bool) (st : AppState) : AppState :=
  match slot with
  | .koi => { st with useDemoKoi := b }
  | .toi => { st with useDemoToi := b }
  | .k2 => { st with useDemoK2 := b }

/-- The file cell of a slot. -/
def fileOf (slot : Slot) (st : AppState) : Option File :=
  match slot with
  | .koi => st.koiFile
  | .toi => st.toiFile
  | .k2 => st.k2File

/-- The demo cell of a slot. -/
def useDemoOf (slot : Slot) (st : AppState) : Bool :=
  match slot with
  | .koi => st.useDemoKoi
  | .toi => st.useDemoToi
  | .k2 => st.useDemoK2

/-- The handler `makeFileChangeHandler(setter)`, for the setter of `slot`.
`file` is `event.target.files && event.target.files[0]`: the first chosen
file, if any. -/
def makeFileChangeHandler (slot : Slot) (file : Option File) (st : AppState) : AppState :=
  let st1 := setFile slot file st
  match file with
  | some _ => { st1 with showErrors := false }
  | none => st1

/-- The `onChange` handler of a slot's demo checkbox, `checked` being
`e.target.checked`. -/
def demoOnChange (slot : Slot) (checked : Bool) (st : AppState) : AppState :=
  let st1 := setUseDemo slot checked st
  if checked then setFile slot none st1 else st1

/-- The `onClick` handler of a slot's clear button. -/
def clearOnClick (slot : Slot) (st : AppState) : AppState :=
  setUseDemo slot false (setFile slot none st)

/-- The `onChange` handler of the target-limit field. -/
def targetLimitsOnChange (value : String) (st : AppState) : AppState :=
  { st with targetLimits := numOr (parseInt value) 50 }

/-- The `onChange` handler of the seed field. -/
def seedOnChange (value : String) (st : AppState) : AppState :=
  { st with seed := numOr (parseInt value) 8 }

/-- The function `openModal`: state after the call and the effects issued. -/
def openModal (st : AppState) : AppState × List Effect :=
  let cleared : List Effect := if st.hideTimer then [.clearTimeout .hideModal] else []
  ({ st with hideTimer := false, isModalMounted := true },
    cleared ++ [.requestAnimationFrame])

/-- The function `closeModal`: state after the call and the effects issued. -/
def closeModal (st : AppState) : AppState × List Effect :=
  let cleared : List Effect := if st.hideTimer then [.clearTimeout .hideModal] else []
  ({ st with isModalVisible := false, showErrors := false, submitError := "",
             hideTimer := true },
    cleared ++ [.setTimeout .hideModal 260])

/-- The callback `closeModal` hands to `setTimeout`. -/
def hideModalCallback (st : AppState) : AppState :=
  { st with isModalMounted := false, hideTimer := false }

/-! ## Submission -/

/-- The constant `baseUrl` of `handleSubmitClick`. -/
def baseUrl : String :=
  "http://ec2-54-151-59-221.us-west-1.compute.amazonaws.com:8000"

/-- The memoised constant `apiUrl`. -/
def apiUrl : String :=
  baseUrl ++ "/api/upload"

/-- The `FormData` body `handleSubmitClick` builds, in the order of its
`append` calls. -/
def formData (st : AppState) : List (String × FormValue) :=
  (match st.koiFile with | some f => [("koi", FormValue.file f)] | none => []) ++
  (match st.toiFile with | some f => [("toi", FormValue.file f)] | none => []) ++
  (match st.k2File with | some f => [("k2", FormValue.file f)] | none => []) ++
  (if st.useDemoKoi then [("use_demo_koi", FormValue.text "true")] else []) ++
  (if st.useDemoToi then [("use_demo_toi", FormValue.text "true")] else []) ++
  (if st.useDemoK2 then [("use_demo_k2", FormValue.text "true")] else [])

/-- The request address `urlWithParams`. -/
def urlWithParams (st : AppState) : String :=
  apiUrl ++ "?limit_targets=" ++ numberToString st.targetLimits ++ "&seed="
    ++ numberToString st.seed

/-- The local `hasAny` of `handleSubmitClick`. -/
def hasAny (st : AppState) : Bool :=
  st.koiFile.isSome || st.toiFile.isSome || st.k2File.isSome ||
  st.useDemoKoi || st.useDemoToi || st.useDemoK2

/-- Where `handleSubmitClick` stands when it first yields: the state after
its setters, the effects issued, and whether it is suspended at
`await axios.post` (otherwise it has returned). -/
structure SubmitStart where
  app : AppState
  effects : List Effect
  awaiting : Bool
deriving DecidableEq, Repr

/-- The function `handleSubmitClick` up to its first suspension point. -/
def handleSubmitClick (st : AppState) : SubmitStart :=
  if !hasAny st then
    { app := { st with showErrors := true, shakeSubmit := true }
      effects := [.setTimeout .shake 450]
      awaiting := false }
  else
    { app := { st with showErrors := false, submitError := "", progress := none,
                       isSubmitting := true }
      effects := [.post (urlWithParams st) (formData st)]
      awaiting := true }

/-- The callback `() => setShakeSubmit(false)`. -/
def shakeCallback (st : AppState) : AppState :=
  { st with shakeSubmit := false }

/-- The body `res.data` of a successful submission response.  A field the
service left out is `none`. -/
structure SubmitData where
  job_id : String
  status_url : Option String
  download_url : Option String
deriving DecidableEq, Repr

/-- The value of `err.response.data`: missing, a string, or an object with
an optional `message` field. -/
inductive Body where
  | absent
  | text (s : String)
  | object (message : Option String)
deriving DecidableEq, Repr

/-- The value of `err.response`. -/
structure ErrResponse where
  status : Nat
  data : Body
deriving DecidableEq, Repr

/-- The error a rejected `axios.post` throws. -/
structure SubmitError where
  response : Option ErrResponse
  code : Option String
  message : Option String
deriving DecidableEq, Repr

/-- How `await axios.post` ends. -/
inductive SubmitResult where
  | ok (data : SubmitData)
  | failed (err : SubmitError)
deriving DecidableEq, Repr

/-- The `TypeError` thrown by `status_url.startsWith` or
`download_url.startsWith` when the field is missing (the text V8 gives). -/
def missingUrlError : SubmitError where
  response := none
  code := none
  message := some "Cannot read properties of undefined (reading 'startsWith')"

/-- The `errorMessage` computed by the `catch` block of `handleSubmitClick`. -/
def errorMessage (err : SubmitError) : String :=
  let fallback := "Something went wrong while sending files."
  let status := err.response.map (fun r => r.status)
  if status = some 404 then
    "API endpoint not found. Please check your server configuration."
  else if status = some 500 then
    "Server error occurred. Please try again later."
  else if status = some 0 || err.code = some "NETWORK_ERROR" then
    "Cannot connect to server. Please check your connection and server status."
  else
    match err.response.map (fun r => r.data) with
    | some (Body.object m) =>
      match m with
      | some msg => if msg = "" then fallback else msg
      | none => fallback
    | some (Body.text s) =>
      if s = "" then strOr err.message fallback
      else if jsIncludes s "<html>" then
        "Server returned an error. Please check your API endpoint."
      else s
    | _ => strOr err.message fallback

/-- The conditional that turns a returned address into `fullStatusUrl` or
`fullDownloadUrl`. -/
def fullUrl (url : String) : String :=
  if jsStartsWith url "http" then url else baseUrl ++ url

/-! ## Status poller -/

/-- The body `s` of a status response.  A field the service left out is
`none`. -/
structure StatusResponse where
  state : Option String
  progress : Option Progress
  error : Option String
deriving DecidableEq, Repr

/-- How `await axios.get(fullStatusUrl)` ends. -/
inductive StatusResult where
  | resolved (s : StatusResponse)
  | rejected
deriving DecidableEq, Repr

/-- How the inner `try` block of the `done` branch ends: the bundle was
fetched and saved, the fetch was rejected, or saving the fetched bundle
threw. -/
inductive DownloadResult where
  | saved
  | fetchFailed
  | saveFailed
deriving DecidableEq, Repr

/-- What an invocation chain of `poll` is waiting for. -/
inductive Phase where
  | awaitingStatus
  | awaitingDownload
  | scheduled
  | stopped
deriving DecidableEq, Repr

/-- The closure of one `poll` function: the two addresses, `interval`, the
`cancelled` flag, and what the poller is waiting for. -/
structure Poller where
  fullStatusUrl : String
  fullDownloadUrl : String
  interval : Nat
  cancelled : Bool
  phase : Phase
deriving DecidableEq, Repr

/-- The result of running `poll` from one suspension point to the next. -/
structure PollStep where
  app : AppState
  poller : Poller
  effects : List Effect
deriving DecidableEq, Repr

/-- The function `poll` from its entry to `await axios.get(fullStatusUrl)`. -/
def poll (st : AppState) (p : Poller) : PollStep :=
  if p.cancelled then
    { app := st, poller := { p with phase := .stopped }, effects := [] }
  else
    { app := st, poller := { p with phase := .awaitingStatus },
      effects := [.getStatus p.fullStatusUrl] }

/-- The function `poll` from the end of `await axios.get(fullStatusUrl)` to
its next suspension point or its return. -/
def pollOnStatus (r : StatusResult) (st : AppState) (p : Poller) : PollStep :=
  match r with
  | .rejected =>
    { app := { st with submitError := "Failed to check job status", isLoading := false }
      poller := { p with phase := .stopped }
      effects := [] }
  | .resolved s =>
    let st1 : AppState :=
      match s.progress with
      | some pr => { st with progress := some pr }
      | none => st
    if s.state = some "done" then
      { app := st1, poller := { p with phase := .awaitingDownload },
        effects := [.getDownload p.fullDownloadUrl] }
    else if s.state = some "error" then
      { app := { st1 with submitError := strOr s.error "Analysis failed", isLoading := false }
        poller := { p with phase := .stopped }
        effects := [] }
    else
      { app := st1, poller := { p with phase := .scheduled },
        effects := [.setTimeout .poll p.interval] }

/-- The function `poll` from the end of the download attempt to its
return. -/
def pollOnDownload (d : DownloadResult) (st : AppState) (p : Poller) : PollStep :=
  let delivery : List Effect :=
    match d with
    | .saved => [.saveBlob "results.zip"]
    | .fetchFailed => [.navigate p.fullDownloadUrl]
    | .saveFailed => [.navigate p.fullDownloadUrl]
  let closed := closeModal { st with isLoading := false }
  { app := { closed.1 with showResults := true }
    poller := { p with phase := .stopped }
    effects := delivery ++ closed.2 }

/-- Where `handleSubmitClick` stands after `await axios.post` has ended and
the function has run to its return. -/
structure SubmitEnd where
  app : AppState
  poller : Option Poller
  effects : List Effect
deriving DecidableEq, Repr

/-- The `catch` and `finally` blocks of `handleSubmitClick`. -/
def catchSubmit (err : SubmitError) (st : AppState) : SubmitEnd :=
  { app := { st with submitError := errorMessage err, isSubmitting := false }
    poller := none
    effects := [] }

/-- The function `handleSubmitClick` from the end of `await axios.post` to
its return. -/
def handleSubmitResolved (r : SubmitResult) (st : AppState) : SubmitEnd :=
  match r with
  | .failed err => catchSubmit err st
  | .ok data =>
    match data.status_url, data.download_url with
    | some status_url, some download_url =>
      let fullStatusUrl := fullUrl status_url
      let fullDownloadUrl := fullUrl download_url
      let st1 : AppState :=
        { st with jobData := some { job_id := data.job_id, status_url := fullStatusUrl,
                                    download_url := fullDownloadUrl }
                  isLoading := true }
      let started := poll st1 { fullStatusUrl := fullStatusUrl, fullDownloadUrl := fullDownloadUrl,
                                interval := 200, cancelled := false, phase := .stopped }
      { app := { started.app with isSubmitting := false }
        poller := some started.poller
        effects := started.effects }
    | _, _ => catchSubmit missingUrlError st

/-! ## One poller as a machine -/

/-- A poller together with the component state it writes and the log of
effects so far. -/
structure PollCfg where
  app : AppState
  poller : Poller
  log : List Effect
deriving DecidableEq, Repr

/-- What can happen to a poller: its status request ends, its timer fires,
its download attempt ends, or the function `() => { cancelled = true; }`
that `handleSubmitClick` returns is called.  The source holds no call of
that function; the event stands for a caller that keeps and uses it. -/
inductive PollerEvent where
  | statusResolves (r : StatusResult)
  | timerFires
  | downloadResolves (d : DownloadResult)
  | cancel
deriving DecidableEq, Repr

/-- Appends the outcome of a `poll` segment to a configuration. -/
def PollCfg.after (c : PollCfg) (r : PollStep) : PollCfg :=
  { app := r.app, poller := r.poller, log := c.log ++ r.effects }

/-- One event of a poller.  An event the poller is not waiting for cannot
occur and leaves the configuration as it is. -/
def pollerStep (e : PollerEvent) (c : PollCfg) : PollCfg :=
  match e, c.poller.phase with
  | .statusResolves r, .awaitingStatus => c.after (pollOnStatus r c.app c.poller)
  | .timerFires, .scheduled => c.after (poll c.app c.poller)
  | .downloadResolves d, .awaitingDownload => c.after (pollOnDownload d c.app c.poller)
  | .cancel, _ => { c with poller := { c.poller with cancelled := true } }
  | _, _ => c

/-- A sequence of poller events, in order. -/
def pollerRun (es : List PollerEvent) (c : PollCfg) : PollCfg :=
  es.foldl (fun c e => pollerStep e c) c

/-- The events by which the service answers successive status requests with
the responses `rs`, none of them terminal: each response arrives and the
timer it sets fires. -/
def answers (rs : List StatusResponse) : List PollerEvent :=
  rs.flatMap (fun r => [.statusResolves (.resolved r), .timerFires])

/-- A poller as `handleSubmitClick` starts it for the two addresses: the
flag clear and the first call of `poll` made. -/
def startPolling (statusUrl downloadUrl : String) (st : AppState) : PollCfg :=
  PollCfg.after { app := st, poller := { fullStatusUrl := statusUrl, fullDownloadUrl := downloadUrl,
                                         interval := 200, cancelled := false, phase := .stopped },
                  log := [] }
    (poll st { fullStatusUrl := statusUrl, fullDownloadUrl := downloadUrl,
               interval := 200, cancelled := false, phase := .stopped })

/-! ## The component as a machine -/

/-- The component between two events: its state cells, the number of
submissions suspended at `await axios.post`, every poller started so far
(oldest first), the animation-frame and shake callbacks still due, and the
log of effects. -/
structure Sys where
  app : AppState
  postsInFlight : Nat
  pollers : List Poller
  pendingFrames : Nat
  pendingShakes : Nat
  log : List Effect
deriving DecidableEq, Repr

/-- The component as first rendered. -/
def Sys.initial : Sys where
  app := AppState.initial
  postsInFlight := 0
  pollers := []
  pendingFrames := 0
  pendingShakes := 0
  log := []

/-- Everything that can happen to the component: the user acts on a control,
a callback falls due, a request ends. -/
inductive Event where
  | openModalClick
  | closeModalRequest
  | animationFrame
  | hideTimerFires
  | shakeTimerFires
  | fileChange (slot : Slot) (file : Option File)
  | demoChange (slot : Slot) (checked : Bool)
  | clearClick (slot : Slot)
  | targetLimitsChange (value : String)
  | seedChange (value : String)
  | submitClick
  | postResolves (r : SubmitResult)
  | poller (i : Nat) (e : PollerEvent)
deriving DecidableEq, Repr

/-- Whether the upload dialog, with its inputs and its submit button, is
rendered: `isModalMounted && !isLoading`, on the page that is replaced by
the results view once `showResults` is set. -/
def dialogShown (st : AppState) : Bool :=
  st.isModalMounted && !st.isLoading && !st.showResults

/-- One event of the component.  An event whose control is not rendered, or
whose callback or request is not pending, cannot occur and leaves the
component as it is. -/
def Sys.step (e : Event) (s : Sys) : Sys :=
  match e with
  | .openModalClick =>
    if s.app.showResults then s
    else
      let r := openModal s.app
      { s with app := r.1, pendingFrames := s.pendingFrames + 1, log := s.log ++ r.2 }
  | .closeModalRequest =>
    let r := closeModal s.app
    { s with app := r.1, log := s.log ++ r.2 }
  | .animationFrame =>
    if s.pendingFrames = 0 then s
    else { s with app := { s.app with isModalVisible := true },
                  pendingFrames := s.pendingFrames - 1 }
  | .hideTimerFires =>
    if s.app.hideTimer then { s with app := hideModalCallback s.app } else s
  | .shakeTimerFires =>
    if s.pendingShakes = 0 then s
    else { s with app := shakeCallback s.app, pendingShakes := s.pendingShakes - 1 }
  | .fileChange slot file =>
    if dialogShown s.app then { s with app := makeFileChangeHandler slot file s.app } else s
  | .demoChange slot checked =>
    if dialogShown s.app then { s with app := demoOnChange slot checked s.app } else s
  | .clearClick slot =>
    if dialogShown s.app && ((fileOf slot s.app).isSome || useDemoOf slot s.app) then
      { s with app := clearOnClick slot s.app }
    else s
  | .targetLimitsChange value =>
    if dialogShown s.app then { s with app := targetLimitsOnChange value s.app } else s
  | .seedChange value =>
    if dialogShown s.app then { s with app := seedOnChange value s.app } else s
  | .submitClick =>
    if dialogShown s.app && !s.app.isSubmitting then
      let r := handleSubmitClick s.app
      { s with app := r.app
               postsInFlight := if r.awaiting then s.postsInFlight + 1 else s.postsInFlight
               pendingShakes := if r.awaiting then s.pendingShakes else s.pendingShakes + 1
               log := s.log ++ r.effects }
    else s
  | .postResolves res =>
    if s.postsInFlight = 0 then s
    else
      let r := handleSubmitResolved res s.app
      { s with app := r.app
               postsInFlight := s.postsInFlight - 1
               pollers := s.pollers ++ r.poller.toList
               log := s.log ++ r.effects }
  | .poller i pe =>
    match s.pollers.get? i with
    | none => s
    | some p =>
      let c := pollerStep pe { app := s.app, poller := p, log := s.log }
      { s with app := c.app, pollers := s.pollers.set i c.poller, log := c.log }

/-- A sequence of events, in order. -/
def Sys.run (es : List Event) (s : Sys) : Sys :=
  es.foldl (fun s e => Sys.step e s) s

/-- The states the component can be in: those some sequence of events leads
to from the first render. -/
def Reachable (s : Sys) : Prop :=
  ∃ es : List Event, s = Sys.run es Sys.initial

/-- Tearing down the view: React runs the cleanup functions the effects of
the component returned.  There is one, `() => window.removeEventListener(
'keydown', onKeyDown)`; the function `handleSubmitClick` returns is handed
to no effect and is not among them.  Requests in flight and timers set by a
poller stay as they are; what their callbacks write to the state cells is
dropped by React from then on, what they request or schedule is not. -/
def unmount (s : Sys) : Sys :=
  { s with log := s.log ++ [.removeEventListener] }

/-! ## Sample inputs and projections -/

/-- A status response with state `running` and nothing else. -/
def runningResponse : StatusResponse where
  state := some "running"
  progress := none
  error := none

/-- A status response with state `done` and nothing else. -/
def doneResponse : StatusResponse where
  state := some "done"
  progress := none
  error := none

/-- A poller waiting for the answer to its first status request, as
`handleSubmitClick` leaves it after a successful submission. -/
def pollingExample : PollCfg :=
  startPolling (baseUrl ++ "/jobs/123/status") (baseUrl ++ "/jobs/123/download")
    { AppState.initial with isModalMounted := true, isLoading := true }

/-- The poller of `pollingExample` after the function returned by
`handleSubmitClick` has been called: the flag is set while the first status
request is still unanswered. -/
def cancelledInFlight : PollCfg :=
  pollerStep .cancel pollingExample

/-- A file a user may choose in a file input. -/
def sampleFile : File where
  name := "koi.csv"
  content := "kepid,koi_period"

/-- The two parameters sent with a submission. -/
def paramsOf (st : AppState) : JsNumber × JsNumber :=
  (st.targetLimits, st.seed)

/-! ## Rendering -/

/-- What the loading panel shows of `progress`: the dataset label and the
number whose `toFixed(1)` text is printed before the percent sign.  The
panel is rendered when `isLoading` is set, its progress block when
`progress` is set, and the whole page gives way to the results view once
`showResults` is set. -/
def progressRendering (st : AppState) : Option (String × Rat) :=
  if st.showResults then none
  else if st.isLoading then st.progress.map (fun p => (p.dataset, p.percent))
  else none

/-- The progress object of the scenario: dataset `toi` at 12.5 percent. -/
def scanningProgress : Progress where
  dataset := "toi"
  percent := 25 / 2
  message := "scanning"
  last_target := none

/-- The scenario run: the dialog is opened, the second slot is given its
demo flag, the submission succeeds with job `abc123`, and the first status
response is `running` with `scanningProgress`. -/
def scenarioRun : List Event :=
  [.openModalClick, .demoChange .toi true, .submitClick,
   .postResolves (.ok { job_id := "abc123", status_url := some "/api/jobs/abc123/status",
                        download_url := some "/api/jobs/abc123/download" }),
   .poller 0 (.statusResolves (.resolved
     { state := some "running", progress := some scanningProgress, error := none }))]

/-- The message of the `catch` block for a server response with status 500. -/
def serverErrorMessage : String :=
  "Server error occurred. Please try again later."

/-- The message of the `catch` block for a connection failure. -/
def connectivityMessage : String :=
  "Cannot connect to server. Please check your connection and server status."

/-- The initial value of `errorMessage` in the `catch` block. -/
def genericSubmitMessage : String :=
  "Something went wrong while sending files."

/-- The message of the `catch` block for a body that is an HTML page. -/
def htmlErrorMessage : String :=
  "Server returned an error. Please check your API endpoint."

/-! ## The CSV reader of the results view (`src/Results.js`) -/

/-- The JavaScript method `s.trim()`: white space and line terminators are
removed from both ends. -/
def jsTrim (s : String) : String :=
  ⟨((s.data.dropWhile isStrWhiteSpaceChar).reverse.dropWhile isStrWhiteSpaceChar).reverse⟩

/-- The pieces of a character list between the occurrences of `sep`; there
is always at least one piece. -/
def splitChars (sep : Char) : List Char → List (List Char)
  | [] => [[]]
  | c :: cs =>
    if c = sep then [] :: splitChars sep cs
    else
      match splitChars sep cs with
      | [] => [[c]]
      | piece :: pieces => (c :: piece) :: pieces

/-- The JavaScript method `s.split(sep)` for a separator of one character. -/
def jsSplit (s : String) (sep : Char) : List String :=
  (splitChars sep s.data).map String.mk

/-- A value stored in a record: a number or a string. -/
inductive Field (ν : Type) where
  | number (x : ν)
  | text (s : String)
deriving DecidableEq, Repr

/-- A record `row`: its keys with their values.  Keys are kept in the order
of their first assignment; no statement here depends on that order. -/
abbrev Row (ν : Type) := List (String × Field ν)

/-- The assignment `row[key] = v` of a number or a string to a key of an
object literal: an existing key is overwritten, a new key is added, and the
key `__proto__` is left alone, its setter ignoring values that are not
objects. -/
def Row.assign {ν : Type} (row : Row ν) (key : String) (v : Field ν) : Row ν :=
  if key = "__proto__" then row
  else
    match row with
    | [] => [(key, v)]
    | (k, w) :: rest => if k = key then (k, v) :: rest else (k, w) :: Row.assign rest key v

/-- The value of `row[key]` for a key of the record. -/
def Row.lookup {ν : Type} (row : Row ν) (key : String) : Option (Field ν) :=
  (row.find? (fun kv => kv.1 = key)).map (fun kv => kv.2)

/-- The headers whose cells `parseCSV` converts to numbers. -/
def numericFields : List String :=
  ["prob", "label", "P_days", "Dur_hr", "Rp_Re", "Teff_K", "Depth_ppm", "Rstar_Rsun"]

/-- The expression `line.split(',').map(v => v.trim())`. -/
def cells (line : String) : List String :=
  (jsSplit line ',').map jsTrim

/-- The expression `values[index] || ''`. -/
def cellAt (values : List String) (index : Nat) : String :=
  (values.get? index).getD ""

/-- The value `parseCSV` stores under `header` for the cell text `value`.
`parseFloat` is the JavaScript builtin, taken as a parameter; `none` is
`NaN`. -/
def cellValue {ν : Type} [Zero ν] (parseFloat : String → Option ν) (header value : String) :
    Field ν :=
  if header ∈ numericFields then
    match parseFloat value with
    | some numValue => .number numValue
    | none => .number 0
  else .text value

/-- The loop `headers.forEach((header, index) => ...)` from position `index`
on, over the headers still to visit. -/
def forEachHeader {ν : Type} [Zero ν] (parseFloat : String → Option ν) (values : List String) :
    List String → Nat → Row ν → Row ν
  | [], _, row => row
  | header :: rest, index, row =>
    forEachHeader parseFloat values rest (index + 1)
      (row.assign header (cellValue parseFloat header (cellAt values index)))

/-- The local `lines` of `parseCSV`. -/
def csvLines (csvText : String) : List String :=
  jsSplit (jsTrim csvText) '\n'

/-- The local `headers` of `parseCSV`. -/
def csvHeaders (csvText : String) : List String :=
  cells ((csvLines csvText).headD "")

/-- The function `parseCSV` of the results view. -/
def parseCSV {ν : Type} [Zero ν] (parseFloat : String → Option ν) (csvText : String) :
    List (Row ν) :=
  if (csvLines csvText).length < 2 then []
  else
    ((csvLines csvText).drop 1).map
      (fun line => forEachHeader parseFloat (cells line) (csvHeaders csvText) 0 [])

/-- A stand-in for `parseFloat` on cells that hold whole numbers. -/
def wholeNumber (s : String) : Option Int :=
  match parseInt s with
  | some (.finite n) => some n
  | _ => none

/-- A small table: a name column and a numeric column, with one cell that
is not a number and one that is missing. -/
def sampleCsv : String :=
  "name, prob\nK-1, 1\nK-2, n/a\nK-3\n"

/-! ## Invariants of the component -/

/-- Whether a poller still has a step pending: a request in flight or a
timer set. -/
def Poller.isActive (p : Poller) : Bool :=
  match p.phase with
  | .stopped => false
  | _ => true

/-- The number of pollers that still have a step pending. -/
def activePollers (s : Sys) : Nat :=
  s.pollers.countP Poller.isActive

/-- The state cells that tell where a job stands. -/
def coreOf (st : AppState) : Bool × Bool × Option Progress :=
  (st.isSubmitting, st.isLoading, st.progress)

/-- What holds in every state of the component: at most one submission is
suspended, and while it is the submit button is disabled, the snapshot is
empty and no poller is pending; at most one poller is pending, and while it
is the loading panel is up; and before the first poller the snapshot is
empty. -/
def Sys.Inv (s : Sys) : Prop :=
  (s.postsInFlight = 0 ∨
    (s.postsInFlight = 1 ∧ s.app.isSubmitting = true ∧ s.app.progress = none ∧
      activePollers s = 0)) ∧
  activePollers s ≤ 1 ∧
  (0 < activePollers s → s.app.isLoading = true) ∧
  (s.pollers = [] → s.app.progress = none)

/-- The component after the first four events of the scenario run: the
submission has succeeded and the first status request of its poller is in
flight. -/
def pollingSys : Sys :=
  Sys.run (scenarioRun.take 4) Sys.initial

/-- The scenario run followed by the poller's timer and a status response with state
`error`. -/
def failedRun : List Event :=
  scenarioRun ++ [.poller 0 .timerFires, .poller 0 (.statusResolves (.resolved
    { state := some "error", progress := none, error := some "bad data" }))]

/-- The scenario run followed by the poller's timer, a `done` response and a
saved bundle. -/
def succeededRun : List Event :=
  scenarioRun ++ [.poller 0 .timerFires, .poller 0 (.statusResolves (.resolved doneResponse)),
                  .poller 0 (.downloadResolves .saved)]

/-! ## Counting requests and responses -/

/-- The number of status requests a poller has in flight: one while it
awaits a status response, none otherwise. -/
def inFlight (c : PollCfg) : Nat :=
  match c.poller.phase with
  | .awaitingStatus => 1
  | _ => 0

/-- Whether an event is the answer to a status request in flight, as a
number. -/
def answersRequest (e : PollerEvent) (c : PollCfg) : Nat :=
  match e, c.poller.phase with
  | .statusResolves _, .awaitingStatus => 1
  | _, _ => 0

/-- The number of status requests answered along a sequence of events. -/
def answeredCount : List PollerEvent → PollCfg → Nat
  | [], _ => 0
  | e :: es, c => answersRequest e c + answeredCount es (pollerStep e c)

/-! ## Lemmas on the poller machine -/

theorem pollerRun_append (es fs : List PollerEvent) (c : PollCfg) :
    pollerRun (es ++ fs) c = pollerRun fs (pollerRun es c) := by
  simp [pollerRun, List.foldl_append]

theorem pollerRun_cons (e : PollerEvent) (es : List PollerEvent) (c : PollCfg) :
    pollerRun (e :: es) c = pollerRun es (pollerStep e c) := rfl

theorem answers_cons (r : StatusResponse) (rs : List StatusResponse) :
    answers (r :: rs) =
      PollerEvent.statusResolves (.resolved r) :: PollerEvent.timerFires :: answers rs := by
  simp [answers]

/-- A response that is not terminal, answered and followed by its timer,
leaves an uncancelled poller waiting for the next response, one status
request later. -/
theorem answer_step (c : PollCfg) (r : StatusResponse)
    (hphase : c.poller.phase = .awaitingStatus) (hflag : c.poller.cancelled = false)
    (hd : r.state ≠ some "done") (he : r.state ≠ some "error") :
    (pollerStep .timerFires (pollerStep (.statusResolves (.resolved r)) c)).poller.phase
        = .awaitingStatus ∧
    (pollerStep .timerFires (pollerStep (.statusResolves (.resolved r)) c)).poller.cancelled
        = false ∧
    statusRequests (pollerStep .timerFires (pollerStep (.statusResolves (.resolved r)) c)).log
        = statusRequests c.log + 1 ∧
    downloadRequests (pollerStep .timerFires (pollerStep (.statusResolves (.resolved r)) c)).log
        = downloadRequests c.log := by
  simp [pollerStep, hphase, PollCfg.after, pollOnStatus, hd, he, poll, hflag, statusRequests,
    downloadRequests, List.countP_append, Effect.isStatusRequest, Effect.isDownloadRequest]

/-- Answering a run of non-terminal responses costs one status request each
and no download request. -/
theorem answers_run (rs : List StatusResponse) :
    ∀ c : PollCfg, c.poller.phase = .awaitingStatus → c.poller.cancelled = false →
      (∀ r ∈ rs, r.state ≠ some "done" ∧ r.state ≠ some "error") →
      (pollerRun (answers rs) c).poller.phase = .awaitingStatus ∧
      (pollerRun (answers rs) c).poller.cancelled = false ∧
      statusRequests (pollerRun (answers rs) c).log = statusRequests c.log + rs.length ∧
      downloadRequests (pollerRun (answers rs) c).log = downloadRequests c.log := by
  induction rs with
  | nil => intro c hp hc _; simp [answers, pollerRun, hp, hc]
  | cons r rs ih =>
    intro c hp hc hrs
    have hr := hrs r (List.mem_cons_self r rs)
    obtain ⟨h1, h2, h3, h4⟩ := answer_step c r hp hc hr.1 hr.2
    have hrest := ih _ h1 h2 (fun x hx => hrs x (List.mem_cons_of_mem r hx))
    rw [answers_cons, pollerRun_cons, pollerRun_cons]
    refine ⟨hrest.1, hrest.2.1, ?_, ?_⟩
    · rw [hrest.2.2.1, h3, List.length_cons]; omega
    · rw [hrest.2.2.2, h4]

/-- A poller that waits for its download or has returned issues no request
whatever happens next, and stays that way. -/
theorem quiet_step (e : PollerEvent) (c : PollCfg)
    (h : c.poller.phase = .awaitingDownload ∨ c.poller.phase = .stopped) :
    ((pollerStep e c).poller.phase = .awaitingDownload ∨
        (pollerStep e c).poller.phase = .stopped) ∧
    statusRequests (pollerStep e c).log = statusRequests c.log ∧
    downloadRequests (pollerStep e c).log = downloadRequests c.log := by
  rcases h with h | h <;> cases e <;>
    simp [pollerStep, h, PollCfg.after, pollOnDownload, closeModal, statusRequests,
      downloadRequests, List.countP_append, Effect.isStatusRequest, Effect.isDownloadRequest]
  split <;> simp [List.countP_cons, Effect.isStatusRequest, Effect.isDownloadRequest]

theorem quiet_run (es : List PollerEvent) :
    ∀ c : PollCfg, (c.poller.phase = .awaitingDownload ∨ c.poller.phase = .stopped) →
      ((pollerRun es c).poller.phase = .awaitingDownload ∨
        (pollerRun es c).poller.phase = .stopped) ∧
      statusRequests (pollerRun es c).log = statusRequests c.log ∧
      downloadRequests (pollerRun es c).log = downloadRequests c.log := by
  induction es with
  | nil => intro c h; exact ⟨h, rfl, rfl⟩
  | cons e es ih =>
    intro c h
    obtain ⟨h1, h2, h3⟩ := quiet_step e c h
    obtain ⟨k1, k2, k3⟩ := ih _ h1
    rw [pollerRun_cons]
    exact ⟨k1, k2.trans h2, k3.trans h3⟩

theorem statusRequests_append (a b : List Effect) :
    statusRequests (a ++ b) = statusRequests a + statusRequests b := by
  simp [statusRequests, List.countP_append]

theorem downloadRequests_append (a b : List Effect) :
    downloadRequests (a ++ b) = downloadRequests a + downloadRequests b := by
  simp [downloadRequests, List.countP_append]

/-- Acting on a status response never issues a status request. -/
theorem pollOnStatus_no_status (r : StatusResult) (st : AppState) (p : Poller) :
    statusRequests (pollOnStatus r st p).effects = 0 := by
  cases r with
  | rejected => simp [pollOnStatus, statusRequests]
  | resolved s =>
    unfold pollOnStatus
    simp only
    split_ifs <;> simp [statusRequests, Effect.isStatusRequest]

/-- Finishing the download attempt issues no status request. -/
theorem pollOnDownload_no_status (d : DownloadResult) (st : AppState) (p : Poller) :
    statusRequests (pollOnDownload d st p).effects = 0 := by
  cases d <;> simp [pollOnDownload, closeModal, statusRequests, List.countP_append,
    Effect.isStatusRequest]

/-- Acting on a status response leaves the flag as it is. -/
theorem pollOnStatus_flag (r : StatusResult) (st : AppState) (p : Poller) :
    (pollOnStatus r st p).poller.cancelled = p.cancelled := by
  cases r with
  | rejected => simp [pollOnStatus]
  | resolved s =>
    unfold pollOnStatus
    simp only
    split_ifs <;> rfl

/-- Finishing the download attempt leaves the flag as it is. -/
theorem pollOnDownload_flag (d : DownloadResult) (st : AppState) (p : Poller) :
    (pollOnDownload d st p).poller.cancelled = p.cancelled := rfl

/-- Once the flag is set it stays set, and no event makes the poller issue
a status request. -/
theorem cancelled_step (e : PollerEvent) (c : PollCfg) (h : c.poller.cancelled = true) :
    (pollerStep e c).poller.cancelled = true ∧
    statusRequests (pollerStep e c).log = statusRequests c.log := by
  cases e <;> cases hp : c.poller.phase <;>
    simp [pollerStep, hp, h, PollCfg.after, poll, statusRequests_append,
      pollOnStatus_flag, pollOnDownload_flag, pollOnStatus_no_status, pollOnDownload_no_status]

theorem cancelled_run (es : List PollerEvent) :
    ∀ c : PollCfg, c.poller.cancelled = true →
      (pollerRun es c).poller.cancelled = true ∧
      statusRequests (pollerRun es c).log = statusRequests c.log := by
  induction es with
  | nil => intro c h; exact ⟨h, rfl⟩
  | cons e es ih =>
    intro c h
    obtain ⟨h1, h2⟩ := cancelled_step e c h
    obtain ⟨k1, k2⟩ := ih _ h1
    rw [pollerRun_cons]
    exact ⟨k1, k2.trans h2⟩

/-! ## Validation -/

/-- C1: when all three file slots are empty and all three demo flags are
false, `handleSubmitClick` issues no network request and returns before
`axios.post`, turns `showErrors` on, and leaves `isSubmitting`, `isLoading`,
`jobData`, `progress` and `submitError` as they were, so that a controller
that was idle stays idle. -/
theorem handleSubmitClick_empty_selection (st : AppState)
    (hk : st.koiFile = none) (ht : st.toiFile = none) (h2 : st.k2File = none)
    (dk : st.useDemoKoi = false) (dt : st.useDemoToi = false) (d2 : st.useDemoK2 = false) :
    networkRequests (handleSubmitClick st).effects = 0 ∧
    (handleSubmitClick st).awaiting = false ∧
    (handleSubmitClick st).app.showErrors = true ∧
    (handleSubmitClick st).app.isSubmitting = st.isSubmitting ∧
    (handleSubmitClick st).app.isLoading = st.isLoading ∧
    (handleSubmitClick st).app.jobData = st.jobData ∧
    (handleSubmitClick st).app.progress = st.progress ∧
    (handleSubmitClick st).app.submitError = st.submitError := by
  simp [handleSubmitClick, hasAny, hk, ht, h2, dk, dt, d2, networkRequests, Effect.isRequest]

/-- The empty selection of the first render: nothing is requested and the
validation error is shown. -/
theorem handleSubmitClick_empty_selection_witness :
    AppState.initial.isSubmitting = false ∧ AppState.initial.isLoading = false ∧
    networkRequests (handleSubmitClick AppState.initial).effects = 0 ∧
    (handleSubmitClick AppState.initial).awaiting = false ∧
    (handleSubmitClick AppState.initial).app.showErrors = true ∧
    (handleSubmitClick AppState.initial).app.isSubmitting = AppState.initial.isSubmitting ∧
    (handleSubmitClick AppState.initial).app.isLoading = AppState.initial.isLoading ∧
    (handleSubmitClick AppState.initial).app.jobData = AppState.initial.jobData ∧
    (handleSubmitClick AppState.initial).app.progress = AppState.initial.progress ∧
    (handleSubmitClick AppState.initial).app.submitError = AppState.initial.submitError :=
  ⟨rfl, rfl, handleSubmitClick_empty_selection AppState.initial rfl rfl rfl rfl rfl rfl⟩

/-! ## Polling -/

/-- C2: a poller whose status requests are answered by `rs.length`
non-terminal responses (state neither `done` nor `error`, so `running` in
particular) and then by one `done` response has issued exactly
`rs.length + 1` status requests and exactly one download request when the
`done` response has been processed, and whatever happens afterwards
(`later`) it issues no further status request and no second download
request. -/
theorem poll_running_then_done (st : AppState) (statusUrl downloadUrl : String)
    (rs : List StatusResponse) (done : StatusResponse) (later : List PollerEvent)
    (hrs : ∀ r ∈ rs, r.state ≠ some "done" ∧ r.state ≠ some "error")
    (hdone : done.state = some "done") :
    statusRequests (pollerRun (answers rs ++ [.statusResolves (.resolved done)])
      (startPolling statusUrl downloadUrl st)).log = rs.length + 1 ∧
    downloadRequests (pollerRun (answers rs ++ [.statusResolves (.resolved done)])
      (startPolling statusUrl downloadUrl st)).log = 1 ∧
    statusRequests (pollerRun later (pollerRun (answers rs ++ [.statusResolves (.resolved done)])
      (startPolling statusUrl downloadUrl st))).log = rs.length + 1 ∧
    downloadRequests (pollerRun later (pollerRun (answers rs ++ [.statusResolves (.resolved done)])
      (startPolling statusUrl downloadUrl st))).log = 1 := by
  have h0 : (startPolling statusUrl downloadUrl st).poller.phase = .awaitingStatus ∧
      (startPolling statusUrl downloadUrl st).poller.cancelled = false ∧
      statusRequests (startPolling statusUrl downloadUrl st).log = 1 ∧
      downloadRequests (startPolling statusUrl downloadUrl st).log = 0 := by
    simp [startPolling, PollCfg.after, poll, statusRequests, downloadRequests,
      Effect.isStatusRequest, Effect.isDownloadRequest]
  obtain ⟨a1, a2, a3, a4⟩ := answers_run rs _ h0.1 h0.2.1 hrs
  rw [pollerRun_append]
  generalize pollerRun (answers rs) (startPolling statusUrl downloadUrl st) = c at a1 a2 a3 a4
  have hstep : (pollerRun [PollerEvent.statusResolves (.resolved done)] c).poller.phase
        = .awaitingDownload ∧
      statusRequests (pollerRun [PollerEvent.statusResolves (.resolved done)] c).log
        = statusRequests c.log ∧
      downloadRequests (pollerRun [PollerEvent.statusResolves (.resolved done)] c).log
        = downloadRequests c.log + 1 := by
    simp [pollerRun, pollerStep, a1, PollCfg.after, pollOnStatus, hdone, statusRequests_append,
      downloadRequests_append]
    simp [statusRequests, downloadRequests, Effect.isStatusRequest, Effect.isDownloadRequest]
  obtain ⟨q1, q2, q3⟩ := quiet_run later _ (Or.inl hstep.1)
  rw [q2, q3, hstep.2.1, hstep.2.2, a3, a4, h0.2.2.1, h0.2.2.2]
  omega

/-- The sequence running, running, done: three status requests and one
download request, and none after the download has been saved. -/
theorem poll_running_then_done_witness :
    (∀ r ∈ [runningResponse, runningResponse],
      r.state ≠ some "done" ∧ r.state ≠ some "error") ∧
    doneResponse.state = some "done" ∧
    statusRequests (pollerRun (answers [runningResponse, runningResponse] ++
        [.statusResolves (.resolved doneResponse)])
      (startPolling "/status" "/download" AppState.initial)).log = 2 + 1 ∧
    downloadRequests (pollerRun (answers [runningResponse, runningResponse] ++
        [.statusResolves (.resolved doneResponse)])
      (startPolling "/status" "/download" AppState.initial)).log = 1 ∧
    statusRequests (pollerRun [.downloadResolves .saved, .timerFires]
      (pollerRun (answers [runningResponse, runningResponse] ++
        [.statusResolves (.resolved doneResponse)])
      (startPolling "/status" "/download" AppState.initial))).log = 2 + 1 ∧
    downloadRequests (pollerRun [.downloadResolves .saved, .timerFires]
      (pollerRun (answers [runningResponse, runningResponse] ++
        [.statusResolves (.resolved doneResponse)])
      (startPolling "/status" "/download" AppState.initial))).log = 1 :=
  have hrs : ∀ r ∈ [runningResponse, runningResponse],
      r.state ≠ some "done" ∧ r.state ≠ some "error" := by
    intro r hr
    simp at hr
    subst hr
    decide
  ⟨hrs, rfl, poll_running_then_done AppState.initial "/status" "/download"
    [runningResponse, runningResponse] doneResponse [.downloadResolves .saved, .timerFires]
    hrs rfl⟩

/-- C3, as stated, fails for the empty message: the response
`{state: "error", error: ""}` carries the message `""`, and the failure
message becomes `Analysis failed`, not `""`. -/
theorem poll_error_empty_message :
    pollingExample.poller.phase = .awaitingStatus ∧
    (pollerStep (.statusResolves (.resolved
        { state := some "error", progress := none, error := some "" }))
      pollingExample).app.submitError = "Analysis failed" ∧
    (pollerStep (.statusResolves (.resolved
        { state := some "error", progress := none, error := some "" }))
      pollingExample).app.submitError ≠ "" := by
  decide

/-- C3 (amended): for every status response with state `error` that carries
a non-empty error message `m`, the poller sets `submitError` to exactly `m`
and `isLoading` to false, and whatever happens afterwards (`later`) it
issues no download request and no further status request. -/
theorem poll_error_message (c : PollCfg) (s : StatusResponse) (m : String)
    (later : List PollerEvent)
    (hphase : c.poller.phase = .awaitingStatus)
    (hstate : s.state = some "error") (herr : s.error = some m) (hm : m ≠ "") :
    (pollerStep (.statusResolves (.resolved s)) c).app.submitError = m ∧
    (pollerStep (.statusResolves (.resolved s)) c).app.isLoading = false ∧
    statusRequests (pollerRun later (pollerStep (.statusResolves (.resolved s)) c)).log
      = statusRequests c.log ∧
    downloadRequests (pollerRun later (pollerStep (.statusResolves (.resolved s)) c)).log
      = downloadRequests c.log := by
  have hstep : (pollerStep (.statusResolves (.resolved s)) c).app.submitError = m ∧
      (pollerStep (.statusResolves (.resolved s)) c).app.isLoading = false ∧
      (pollerStep (.statusResolves (.resolved s)) c).poller.phase = .stopped ∧
      (pollerStep (.statusResolves (.resolved s)) c).log = c.log := by
    simp [pollerStep, hphase, PollCfg.after, pollOnStatus, hstate, herr, strOr, hm]
  obtain ⟨_, q2, q3⟩ := quiet_run later _ (Or.inr hstep.2.2.1)
  rw [q2, q3, hstep.2.2.2]
  exact ⟨hstep.1, hstep.2.1, rfl, rfl⟩

/-- The response with state error and message bad data. -/
theorem poll_error_message_witness :
    pollingExample.poller.phase = .awaitingStatus ∧
    "bad data" ≠ "" ∧
    (pollerStep (.statusResolves (.resolved
        { state := some "error", progress := none, error := some "bad data" }))
      pollingExample).app.submitError = "bad data" ∧
    (pollerStep (.statusResolves (.resolved
        { state := some "error", progress := none, error := some "bad data" }))
      pollingExample).app.isLoading = false ∧
    statusRequests (pollerRun [.timerFires, .downloadResolves .saved]
      (pollerStep (.statusResolves (.resolved
        { state := some "error", progress := none, error := some "bad data" }))
      pollingExample)).log = statusRequests pollingExample.log ∧
    downloadRequests (pollerRun [.timerFires, .downloadResolves .saved]
      (pollerStep (.statusResolves (.resolved
        { state := some "error", progress := none, error := some "bad data" }))
      pollingExample)).log = downloadRequests pollingExample.log :=
  ⟨rfl, by decide,
    poll_error_message pollingExample
      { state := some "error", progress := none, error := some "bad data" } "bad data"
      [.timerFires, .downloadResolves .saved] rfl rfl rfl (by decide)⟩

/-- C4: for every status response with state `error`, the failure message
the poller sets is `Analysis failed` when the response has no `error` field,
and in every case it is not the empty string. -/
theorem poll_error_fallback (c : PollCfg) (s : StatusResponse)
    (hphase : c.poller.phase = .awaitingStatus) (hstate : s.state = some "error") :
    (s.error = none →
      (pollerStep (.statusResolves (.resolved s)) c).app.submitError = "Analysis failed") ∧
    (pollerStep (.statusResolves (.resolved s)) c).app.submitError ≠ "" := by
  have hval : (pollerStep (.statusResolves (.resolved s)) c).app.submitError
      = strOr s.error "Analysis failed" := by
    simp [pollerStep, hphase, PollCfg.after, pollOnStatus, hstate]
  rw [hval]
  constructor
  · intro h
    simp [h, strOr]
  · cases he : s.error with
    | none => simp [strOr]
    | some m =>
      by_cases hm : m = ""
      · simp [strOr, hm]
      · simp [strOr, hm]

/-- The response with state error and no error field. -/
theorem poll_error_fallback_witness :
    pollingExample.poller.phase = .awaitingStatus ∧
    (pollerStep (.statusResolves (.resolved
        { state := some "error", progress := none, error := none }))
      pollingExample).app.submitError = "Analysis failed" ∧
    (pollerStep (.statusResolves (.resolved
        { state := some "error", progress := none, error := none }))
      pollingExample).app.submitError ≠ "" :=
  ⟨rfl,
    (poll_error_fallback pollingExample
      { state := some "error", progress := none, error := none } rfl rfl).1 rfl,
    (poll_error_fallback pollingExample
      { state := some "error", progress := none, error := none } rfl rfl).2⟩

/-! ## Cancellation -/

/-- C5, as stated, fails: with the flag set while the status request is in
flight, an `error` response still sets the failure message and ends
loading, a `done` response still starts the download, and a `running`
response with progress still replaces the progress snapshot and sets the
timer for a further call of `poll`. -/
theorem cancelled_response_still_acted_on :
    cancelledInFlight.poller.cancelled = true ∧
    cancelledInFlight.poller.phase = .awaitingStatus ∧
    cancelledInFlight.app.submitError = "" ∧
    cancelledInFlight.app.isLoading = true ∧
    cancelledInFlight.app.progress = none ∧
    (pollerStep (.statusResolves (.resolved
        { state := some "error", progress := none, error := some "bad data" }))
      cancelledInFlight).app.submitError = "bad data" ∧
    (pollerStep (.statusResolves (.resolved
        { state := some "error", progress := none, error := some "bad data" }))
      cancelledInFlight).app.isLoading = false ∧
    (pollerStep (.statusResolves .rejected) cancelledInFlight).app.submitError
      = "Failed to check job status" ∧
    (pollerStep (.statusResolves (.resolved doneResponse)) cancelledInFlight).log
      = cancelledInFlight.log ++ [.getDownload (baseUrl ++ "/jobs/123/download")] ∧
    (pollerStep (.statusResolves (.resolved
        { state := some "running", error := none,
          progress := some { dataset := "toi", percent := 25 / 2, message := "scanning",
                             last_target := none } }))
      cancelledInFlight).app.progress
      = some { dataset := "toi", percent := 25 / 2, message := "scanning",
               last_target := none } ∧
    (pollerStep (.statusResolves (.resolved runningResponse)) cancelledInFlight).log
      = cancelledInFlight.log ++ [.setTimeout .poll 200] := by
  refine ⟨rfl, rfl, rfl, rfl, rfl, ?_, rfl, rfl, rfl, rfl, rfl⟩
  decide

/-- C5 (amended): if the cancellation flag is set after a status request has
been issued but before it resolves, the resolution is acted on exactly as
for a poller whose flag is clear (same state changes, same effects), but no
further status request is ever issued, whatever happens afterwards
(`later`): when the timer set by a non-terminal response fires, `poll`
returns at once, changing no controller state and issuing nothing. -/
theorem poll_cancelled_in_flight (c : PollCfg) (r : StatusResult) (later : List PollerEvent)
    (hphase : c.poller.phase = .awaitingStatus) (hflag : c.poller.cancelled = true) :
    (pollerStep (.statusResolves r) c).app
      = (pollOnStatus r c.app { c.poller with cancelled := false }).app ∧
    (pollerStep (.statusResolves r) c).log
      = c.log ++ (pollOnStatus r c.app { c.poller with cancelled := false }).effects ∧
    statusRequests (pollerRun later (pollerStep (.statusResolves r) c)).log
      = statusRequests c.log ∧
    (pollerStep .timerFires (pollerStep (.statusResolves r) c)).app
      = (pollerStep (.statusResolves r) c).app ∧
    (pollerStep .timerFires (pollerStep (.statusResolves r) c)).log
      = (pollerStep (.statusResolves r) c).log := by
  have hstep : pollerStep (.statusResolves r) c = c.after (pollOnStatus r c.app c.poller) := by
    simp [pollerStep, hphase]
  have hflag1 : (pollerStep (.statusResolves r) c).poller.cancelled = true :=
    (cancelled_step _ c hflag).1
  have hreq : statusRequests (pollerStep (.statusResolves r) c).log = statusRequests c.log :=
    (cancelled_step _ c hflag).2
  have hsame : ∀ p : Poller,
      (pollOnStatus r c.app p).app = (pollOnStatus r c.app { p with cancelled := false }).app ∧
      (pollOnStatus r c.app p).effects
        = (pollOnStatus r c.app { p with cancelled := false }).effects := by
    intro p
    cases r with
    | rejected => simp [pollOnStatus]
    | resolved s =>
      unfold pollOnStatus
      simp only
      split_ifs <;> simp
  refine ⟨?_, ?_, ?_, ?_, ?_⟩
  · rw [hstep]; exact (hsame c.poller).1
  · rw [hstep]; simp [PollCfg.after, (hsame c.poller).2]
  · rw [(cancelled_run later _ hflag1).2, hreq]
  · generalize pollerStep (.statusResolves r) c = c1 at hflag1
    cases hp : c1.poller.phase <;> simp [pollerStep, hp, PollCfg.after, poll, hflag1]
  · generalize pollerStep (.statusResolves r) c = c1 at hflag1
    cases hp : c1.poller.phase <;> simp [pollerStep, hp, PollCfg.after, poll, hflag1]

/-- A running response that resolves after the flag was set: its timer is
set, and when it fires nothing is requested or changed. -/
theorem poll_cancelled_in_flight_witness :
    cancelledInFlight.poller.phase = .awaitingStatus ∧
    cancelledInFlight.poller.cancelled = true ∧
    statusRequests (pollerRun [.timerFires, .timerFires]
      (pollerStep (.statusResolves (.resolved runningResponse)) cancelledInFlight)).log
      = statusRequests cancelledInFlight.log ∧
    (pollerStep .timerFires
      (pollerStep (.statusResolves (.resolved runningResponse)) cancelledInFlight)).app
      = (pollerStep (.statusResolves (.resolved runningResponse)) cancelledInFlight).app ∧
    (pollerStep .timerFires
      (pollerStep (.statusResolves (.resolved runningResponse)) cancelledInFlight)).log
      = (pollerStep (.statusResolves (.resolved runningResponse)) cancelledInFlight).log :=
  ⟨rfl, rfl,
    (poll_cancelled_in_flight cancelledInFlight (.resolved runningResponse)
      [.timerFires, .timerFires] rfl rfl).2.2⟩

/-! ## Endpoint normalisation -/

/-- C6: the code breaks the claim, and its own comment `Add base URL to
relative URLs`.  The returned `status_url` `httpjobs/123/status` begins with
neither `http://` nor `https://`, so it is a relative path, yet it is stored
unchanged and not as the service base followed by the path: the test the
code makes is `startsWith('http')`. -/
theorem stored_endpoint_http_path :
    jsStartsWith "httpjobs/123/status" "http://" = false ∧
    jsStartsWith "httpjobs/123/status" "https://" = false ∧
    (handleSubmitResolved (.ok { job_id := "123", status_url := some "httpjobs/123/status",
                                 download_url := some "/jobs/123/download" })
      AppState.initial).app.jobData
      = some { job_id := "123", status_url := "httpjobs/123/status",
               download_url := baseUrl ++ "/jobs/123/download" } ∧
    "httpjobs/123/status" ≠ baseUrl ++ "httpjobs/123/status" := by
  decide

theorem jsStartsWith_append (p rest : String) : jsStartsWith (p ++ rest) p = true := by
  simp [jsStartsWith, String.data_append]

theorem jsStartsWith_slash (rest : String) : jsStartsWith ("/" ++ rest) "http" = false := by
  simp [jsStartsWith, String.data_append, List.isPrefixOf]

/-- What the two conditionals of `handleSubmitClick` store: the returned
address when it begins with `http`, which covers every address beginning
with `http://` or `https://`, and the service base followed by the returned
address otherwise, which covers every path beginning with `/`, such as
`/jobs/123/status`. -/
theorem stored_endpoints (st : AppState) (job_id status_url download_url rest : String) :
    (handleSubmitResolved (.ok { job_id := job_id, status_url := some status_url,
                                 download_url := some download_url }) st).app.jobData
      = some { job_id := job_id
               status_url :=
                 if jsStartsWith status_url "http" then status_url else baseUrl ++ status_url
               download_url :=
                 if jsStartsWith download_url "http" then download_url
                 else baseUrl ++ download_url } ∧
    (handleSubmitResolved (.ok { job_id := job_id, status_url := some ("http://" ++ rest),
                                 download_url := some ("https://" ++ rest) }) st).app.jobData
      = some { job_id := job_id, status_url := "http://" ++ rest,
               download_url := "https://" ++ rest } ∧
    (handleSubmitResolved (.ok { job_id := job_id, status_url := some ("/" ++ rest),
                                 download_url := some ("/" ++ rest) }) st).app.jobData
      = some { job_id := job_id, status_url := baseUrl ++ ("/" ++ rest),
               download_url := baseUrl ++ ("/" ++ rest) } ∧
    (handleSubmitResolved (.ok { job_id := job_id, status_url := some "/jobs/123/status",
                                 download_url := some download_url }) st).app.jobData.map
        (fun j => j.status_url)
      = some (baseUrl ++ "/jobs/123/status") := by
  have h1 : jsStartsWith ("http://" ++ rest) "http" = true := by
    have := jsStartsWith_append "http" ("://" ++ rest)
    simpa [← String.append_assoc] using this
  have h2 : jsStartsWith ("https://" ++ rest) "http" = true := by
    have := jsStartsWith_append "http" ("s://" ++ rest)
    simpa [← String.append_assoc] using this
  have h3 : jsStartsWith "/jobs/123/status" "http" = false := by decide
  simp [handleSubmitResolved, poll, fullUrl, h1, h2, h3, jsStartsWith_slash]

/-! ## Demo flags and files -/

/-- C7: the code breaks the exclusivity the claim states.  From the first
render, opening the dialog, ticking a slot's demo checkbox and then choosing
a file for the same slot leads to a state in which the slot holds both the
file and an active demo flag, for each of the three slots:
`makeFileChangeHandler` sets the file and leaves the demo flag alone, while
the checkbox handler does clear the file. -/
theorem file_after_demo_keeps_both :
    (Sys.run [.openModalClick, .demoChange .koi true, .fileChange .koi (some sampleFile)]
      Sys.initial).app.koiFile = some sampleFile ∧
    (Sys.run [.openModalClick, .demoChange .koi true, .fileChange .koi (some sampleFile)]
      Sys.initial).app.useDemoKoi = true ∧
    (Sys.run [.openModalClick, .demoChange .toi true, .fileChange .toi (some sampleFile)]
      Sys.initial).app.toiFile = some sampleFile ∧
    (Sys.run [.openModalClick, .demoChange .toi true, .fileChange .toi (some sampleFile)]
      Sys.initial).app.useDemoToi = true ∧
    (Sys.run [.openModalClick, .demoChange .k2 true, .fileChange .k2 (some sampleFile)]
      Sys.initial).app.k2File = some sampleFile ∧
    (Sys.run [.openModalClick, .demoChange .k2 true, .fileChange .k2 (some sampleFile)]
      Sys.initial).app.useDemoK2 = true ∧
    (Sys.run [.openModalClick, .fileChange .koi (some sampleFile), .demoChange .koi true]
      Sys.initial).app.koiFile = none := by
  decide

/-- C8: the code breaks the claim.  In the state reached by opening the
dialog, ticking the KOI demo checkbox and then choosing a KOI file, the
selection passes validation and the body `handleSubmitClick` posts holds
both the file field `koi` and the demo marker `use_demo_koi`. -/
theorem payload_has_file_and_demo_marker :
    hasAny (Sys.run [.openModalClick, .demoChange .koi true,
      .fileChange .koi (some sampleFile)] Sys.initial).app = true ∧
    formData (Sys.run [.openModalClick, .demoChange .koi true,
      .fileChange .koi (some sampleFile)] Sys.initial).app
      = [("koi", .file sampleFile), ("use_demo_koi", .text "true")] ∧
    (Sys.run [.openModalClick, .demoChange .koi true, .fileChange .koi (some sampleFile),
      .submitClick] Sys.initial).log
      = [.requestAnimationFrame,
         .post (apiUrl ++ "?limit_targets=50&seed=7")
           [("koi", .file sampleFile), ("use_demo_koi", .text "true")]] := by
  decide

/-! ## Submission parameters -/

/-- C9: the code breaks the claim for the seed.  Text that does not parse to
an integer (the empty string, `abc`) makes the target limit 50, the value
the field starts with, but makes the seed 8, while the field starts with
7; the request then carries `seed=8`. -/
theorem seed_fallback_is_eight :
    parseInt "" = none ∧ parseInt "abc" = none ∧
    AppState.initial.targetLimits = 50 ∧ AppState.initial.seed = 7 ∧
    (targetLimitsOnChange "" AppState.initial).targetLimits = 50 ∧
    (targetLimitsOnChange "abc" AppState.initial).targetLimits = 50 ∧
    (seedOnChange "" AppState.initial).seed = 8 ∧
    (seedOnChange "abc" AppState.initial).seed = 8 ∧
    (Sys.run [.openModalClick, .seedChange "", .demoChange .toi true, .submitClick]
      Sys.initial).log
      = [.requestAnimationFrame,
         .post (apiUrl ++ "?limit_targets=50&seed=8") [("use_demo_toi", .text "true")]] := by
  decide

/-- C10, as stated, fails: `5000` parses to an integer above 1000 and is
stored as the target limit, `-3` parses to an integer below 1 and is stored
as the seed, and the request then carries `limit_targets=5000&seed=-3`. -/
theorem out_of_range_is_stored :
    parseInt "5000" = some 5000 ∧ parseInt "-3" = some (-3) ∧
    (targetLimitsOnChange "5000" AppState.initial).targetLimits = 5000 ∧
    (seedOnChange "-3" AppState.initial).seed = -3 ∧
    (Sys.run [.openModalClick, .targetLimitsChange "5000", .seedChange "-3",
      .demoChange .toi true, .submitClick] Sys.initial).log
      = [.requestAnimationFrame,
         .post (apiUrl ++ "?limit_targets=5000&seed=-3") [("use_demo_toi", .text "true")]] := by
  decide

theorem numOr_ne_zero (x : Option JsNumber) (d : JsNumber) (hd : d ≠ 0) : numOr x d ≠ 0 := by
  cases x with
  | none => simpa [numOr] using hd
  | some n =>
    by_cases hn : n = 0
    · simpa [numOr, hn] using hd
    · simp [numOr, hn]

theorem pollOnStatus_params (r : StatusResult) (st : AppState) (p : Poller) :
    paramsOf (pollOnStatus r st p).app = paramsOf st := by
  cases r with
  | rejected => simp [pollOnStatus, paramsOf]
  | resolved s =>
    unfold pollOnStatus
    simp only
    split_ifs <;> cases s.progress <;> simp [paramsOf]

theorem pollerStep_params (e : PollerEvent) (c : PollCfg) :
    paramsOf (pollerStep e c).app = paramsOf c.app := by
  cases e <;> cases hp : c.poller.phase <;>
    simp [pollerStep, hp, PollCfg.after, poll, pollOnStatus_params]
  all_goals first
    | (split_ifs <;> rfl)
    | simp [pollOnDownload, closeModal, paramsOf]

theorem handleSubmitResolved_params (r : SubmitResult) (st : AppState) :
    paramsOf (handleSubmitResolved r st).app = paramsOf st := by
  cases r with
  | failed err => simp [handleSubmitResolved, catchSubmit, paramsOf]
  | ok data =>
    unfold handleSubmitResolved
    simp only
    split <;> simp [catchSubmit, poll, paramsOf]

theorem handleSubmitClick_params (st : AppState) :
    paramsOf (handleSubmitClick st).app = paramsOf st := by
  unfold handleSubmitClick
  split_ifs <;> simp [paramsOf]

/-- Only the two parameter fields write the parameters, and what they write
is never zero. -/
theorem step_params_ne_zero (e : Event) (s : Sys)
    (h : s.app.targetLimits ≠ 0 ∧ s.app.seed ≠ 0) :
    (Sys.step e s).app.targetLimits ≠ 0 ∧ (Sys.step e s).app.seed ≠ 0 := by
  cases e with
  | openModalClick => unfold Sys.step; simp only; split_ifs <;> simpa [openModal] using h
  | closeModalRequest => simpa [Sys.step, closeModal] using h
  | animationFrame => unfold Sys.step; simp only; split_ifs <;> simpa using h
  | hideTimerFires =>
    unfold Sys.step; simp only; split_ifs <;> simpa [hideModalCallback] using h
  | shakeTimerFires =>
    unfold Sys.step; simp only; split_ifs <;> simpa [shakeCallback] using h
  | fileChange slot file =>
    unfold Sys.step; simp only
    split_ifs
    · cases slot <;> cases file <;> simpa [makeFileChangeHandler, setFile] using h
    · exact h
  | demoChange slot checked =>
    unfold Sys.step; simp only
    split_ifs
    · cases slot <;> cases checked <;> simpa [demoOnChange, setFile, setUseDemo] using h
    · exact h
  | clearClick slot =>
    unfold Sys.step; simp only
    split_ifs
    · cases slot <;> simpa [clearOnClick, setFile, setUseDemo] using h
    · exact h
  | targetLimitsChange value =>
    unfold Sys.step; simp only
    split_ifs
    · exact ⟨numOr_ne_zero _ 50 (by decide), h.2⟩
    · exact h
  | seedChange value =>
    unfold Sys.step; simp only
    split_ifs
    · exact ⟨h.1, numOr_ne_zero _ 8 (by decide)⟩
    · exact h
  | submitClick =>
    have hp := handleSubmitClick_params s.app
    simp only [paramsOf, Prod.mk.injEq] at hp
    unfold Sys.step; simp only
    split_ifs <;> first | exact h | (simp only [hp.1, hp.2]; exact h)
  | postResolves r =>
    unfold Sys.step; simp only
    split_ifs
    · exact h
    · have hp := handleSubmitResolved_params r s.app
      simp only [paramsOf, Prod.mk.injEq] at hp
      simp only [hp.1, hp.2]
      exact h
  | poller i pe =>
    unfold Sys.step; simp only
    split
    · exact h
    · rename_i p _
      have hp := pollerStep_params pe { app := s.app, poller := p, log := s.log }
      simp only [paramsOf, Prod.mk.injEq] at hp
      simp only [hp.1, hp.2]
      exact h

theorem run_params_ne_zero (es : List Event) :
    ∀ s : Sys, (s.app.targetLimits ≠ 0 ∧ s.app.seed ≠ 0) →
      (Sys.run es s).app.targetLimits ≠ 0 ∧ (Sys.run es s).app.seed ≠ 0 := by
  induction es with
  | nil => intro s h; exact h
  | cons e es ih => intro s h; exact ih _ (step_params_ne_zero e s h)

/-- C10 (amended): user input that parses to a non-zero number `n` (the
Number value `parseInt` returns: the double nearest to the integer written,
or an infinity), inside or outside the intended range, is stored as it is,
as the target limit and as the seed; input that parses to 0 makes the
target limit fall back to 50; hence in every reachable state the target
limit sent as `limit_targets` and the seed sent as `seed` are non-zero
numbers, with no bound on either. -/
theorem params_stored_unless_zero (value : String) (n : JsNumber) (st : AppState) (s : Sys)
    (hparse : parseInt value = some n) (hreach : Reachable s) :
    (n ≠ 0 → (targetLimitsOnChange value st).targetLimits = n ∧
      (seedOnChange value st).seed = n) ∧
    (n = 0 → (targetLimitsOnChange value st).targetLimits = 50) ∧
    s.app.targetLimits ≠ 0 ∧ s.app.seed ≠ 0 := by
  refine ⟨?_, ?_, ?_⟩
  · intro hn
    simp [targetLimitsOnChange, seedOnChange, hparse, numOr, hn]
  · intro hn
    simp [targetLimitsOnChange, hparse, numOr, hn]
  · obtain ⟨es, rfl⟩ := hreach
    exact run_params_ne_zero es Sys.initial ⟨by decide, by decide⟩

/-- The input 5000 in the target-limit field of the open dialog. -/
theorem params_stored_unless_zero_witness :
    parseInt "5000" = some 5000 ∧
    Reachable (Sys.run [.openModalClick, .targetLimitsChange "5000"] Sys.initial) ∧
    (targetLimitsOnChange "5000" AppState.initial).targetLimits = 5000 ∧
    (seedOnChange "5000" AppState.initial).seed = 5000 ∧
    (Sys.run [.openModalClick, .targetLimitsChange "5000"] Sys.initial).app.targetLimits ≠ 0 ∧
    (Sys.run [.openModalClick, .targetLimitsChange "5000"] Sys.initial).app.seed ≠ 0 :=
  have h := params_stored_unless_zero "5000" 5000 AppState.initial
    (Sys.run [.openModalClick, .targetLimitsChange "5000"] Sys.initial)
    (by decide) ⟨_, rfl⟩
  ⟨by decide, ⟨_, rfl⟩, (h.1 (by decide)).1, (h.1 (by decide)).2, h.2.2.1, h.2.2.2⟩

/-! ## Transport failure and progress -/

/-- C11: whenever a status request is rejected, on whichever poll (any
configuration in which the poller awaits a status response), the poller
sets `submitError` to `Failed to check job status` and `isLoading` to
false, and whatever happens afterwards (`later`) it issues no download
request and no further status request. -/
theorem poll_transport_failure (c : PollCfg) (later : List PollerEvent)
    (hphase : c.poller.phase = .awaitingStatus) :
    (pollerStep (.statusResolves .rejected) c).app.submitError = "Failed to check job status" ∧
    (pollerStep (.statusResolves .rejected) c).app.isLoading = false ∧
    (pollerStep (.statusResolves .rejected) c).poller.phase = .stopped ∧
    statusRequests (pollerRun later (pollerStep (.statusResolves .rejected) c)).log
      = statusRequests c.log ∧
    downloadRequests (pollerRun later (pollerStep (.statusResolves .rejected) c)).log
      = downloadRequests c.log := by
  have hstep : (pollerStep (.statusResolves .rejected) c).app.submitError
        = "Failed to check job status" ∧
      (pollerStep (.statusResolves .rejected) c).app.isLoading = false ∧
      (pollerStep (.statusResolves .rejected) c).poller.phase = .stopped ∧
      (pollerStep (.statusResolves .rejected) c).log = c.log := by
    simp [pollerStep, hphase, PollCfg.after, pollOnStatus]
  obtain ⟨_, q2, q3⟩ := quiet_run later _ (Or.inr hstep.2.2.1)
  rw [q2, q3, hstep.2.2.2]
  exact ⟨hstep.1, hstep.2.1, hstep.2.2.1, rfl, rfl⟩

/-- The first status request of `pollingExample` is rejected; a timer event
and a download event that follow find nothing to do. -/
theorem poll_transport_failure_witness :
    pollingExample.poller.phase = .awaitingStatus ∧
    (pollerStep (.statusResolves .rejected) pollingExample).app.submitError
      = "Failed to check job status" ∧
    (pollerStep (.statusResolves .rejected) pollingExample).app.isLoading = false ∧
    (pollerStep (.statusResolves .rejected) pollingExample).poller.phase = .stopped ∧
    statusRequests (pollerRun [.timerFires, .downloadResolves .saved]
      (pollerStep (.statusResolves .rejected) pollingExample)).log
      = statusRequests pollingExample.log ∧
    downloadRequests (pollerRun [.timerFires, .downloadResolves .saved]
      (pollerStep (.statusResolves .rejected) pollingExample)).log
      = downloadRequests pollingExample.log :=
  ⟨rfl, poll_transport_failure pollingExample [.timerFires, .downloadResolves .saved] rfl⟩

/-- C12: for every status response that contains a progress object `pr`,
whatever its state, the poller replaces the progress snapshot by exactly
`pr`, and it does so before the state is acted on: the step is the one the
same response without its progress field takes from the state in which the
snapshot is already `pr`.  In the scenario run the loading panel then shows
dataset `toi` at 12.5 percent. -/
theorem poll_progress_replaced (c : PollCfg) (s : StatusResponse) (pr : Progress)
    (hphase : c.poller.phase = .awaitingStatus) (hpr : s.progress = some pr) :
    (pollerStep (.statusResolves (.resolved s)) c).app.progress = some pr ∧
    pollOnStatus (.resolved s) c.app c.poller
      = pollOnStatus (.resolved { s with progress := none })
          { c.app with progress := some pr } c.poller ∧
    (Sys.run scenarioRun Sys.initial).app.progress = some scanningProgress ∧
    progressRendering (Sys.run scenarioRun Sys.initial).app = some ("toi", 25 / 2) := by
  refine ⟨?_, ?_, ?_, ?_⟩
  · simp only [pollerStep, hphase, PollCfg.after, pollOnStatus, hpr]
    split_ifs <;> rfl
  · simp only [pollOnStatus, hpr]
  · rfl
  · rfl

/-- The scenario response arriving at `pollingExample`. -/
theorem poll_progress_replaced_witness :
    pollingExample.poller.phase = .awaitingStatus ∧
    (pollerStep (.statusResolves (.resolved
        { state := some "running", progress := some scanningProgress, error := none }))
      pollingExample).app.progress = some scanningProgress :=
  ⟨rfl, (poll_progress_replaced pollingExample
    { state := some "running", progress := some scanningProgress, error := none }
    scanningProgress rfl rfl).1⟩

/-! ## Failed submissions -/

theorem errorMessage_ne_empty (err : SubmitError) : errorMessage err ≠ "" := by
  have hs : ∀ (x : Option String) (d : String), d ≠ "" → strOr x d ≠ "" := by
    intro x d hd
    cases x with
    | none => simpa [strOr] using hd
    | some m =>
      by_cases hm : m = ""
      · simpa [strOr, hm] using hd
      · simp [strOr, hm]
  unfold errorMessage
  simp only
  split_ifs
  · decide
  · decide
  · decide
  · split
    · split
      · split_ifs with hm
        · decide
        · exact hm
      · decide
    · split_ifs with hs0 hh
      · exact hs _ _ (by decide)
      · decide
      · exact hs0
    · exact hs _ _ (by decide)

/-- C13: when the initial request fails (it is rejected, or its response
lacks `status_url` or `download_url`), `handleSubmitClick` creates no job
and starts no poller: `jobData` and `isLoading` are left as they were, no
request is issued, `submitError` is set to a non-empty message (the
classified one when the request was rejected), and `isSubmitting` is false
when the function returns. -/
theorem submit_failure_creates_no_job (r : SubmitResult) (st : AppState)
    (hfail : ∀ data, r = .ok data → data.status_url = none ∨ data.download_url = none) :
    (handleSubmitResolved r st).app.jobData = st.jobData ∧
    (handleSubmitResolved r st).app.isLoading = st.isLoading ∧
    (handleSubmitResolved r st).poller = none ∧
    (handleSubmitResolved r st).effects = [] ∧
    (handleSubmitResolved r st).app.submitError ≠ "" ∧
    (∀ err, r = .failed err → (handleSubmitResolved r st).app.submitError = errorMessage err) ∧
    (handleSubmitResolved r st).app.isSubmitting = false := by
  cases r with
  | failed err =>
    simp [handleSubmitResolved, catchSubmit, errorMessage_ne_empty]
  | ok data =>
    have hcatch : handleSubmitResolved (.ok data) st = catchSubmit missingUrlError st := by
      rcases hfail data rfl with h | h
      · simp [handleSubmitResolved, h]
      · cases hs : data.status_url <;> simp [handleSubmitResolved, h, hs]
    rw [hcatch]
    simp [catchSubmit, errorMessage_ne_empty]

/-- A submission answered with status 400 and no body, in a state that is
submitting. -/
theorem submit_failure_creates_no_job_witness :
    (handleSubmitResolved
      (.failed { response := some { status := 400, data := .absent }, code := none,
                 message := some "Request failed with status code 400" })
      (handleSubmitClick { AppState.initial with useDemoToi := true }).app).app.jobData = none ∧
    (handleSubmitResolved
      (.failed { response := some { status := 400, data := .absent }, code := none,
                 message := some "Request failed with status code 400" })
      (handleSubmitClick { AppState.initial with useDemoToi := true }).app).app.isLoading
        = false ∧
    (handleSubmitResolved
      (.failed { response := some { status := 400, data := .absent }, code := none,
                 message := some "Request failed with status code 400" })
      (handleSubmitClick { AppState.initial with useDemoToi := true }).app).poller = none ∧
    (handleSubmitResolved
      (.failed { response := some { status := 400, data := .absent }, code := none,
                 message := some "Request failed with status code 400" })
      (handleSubmitClick { AppState.initial with useDemoToi := true }).app).app.isSubmitting
        = false :=
  have h := submit_failure_creates_no_job
    (.failed { response := some { status := 400, data := .absent }, code := none,
               message := some "Request failed with status code 400" })
    (handleSubmitClick { AppState.initial with useDemoToi := true }).app
    (by intro data hd; cases hd)
  ⟨h.1, h.2.1, h.2.2.1, h.2.2.2.2.2.2⟩

/-- C14, as stated, fails: a response with status 502 whose body carries the
message `Bad Gateway` surfaces `Bad Gateway`, and a response with status 503
and no body surfaces the error's own message; neither is the retry-later
message. -/
theorem gateway_error_not_retry_later :
    errorMessage { response := some { status := 502, data := .object (some "Bad Gateway") },
                   code := some "ERR_BAD_RESPONSE",
                   message := some "Request failed with status code 502" }
      = "Bad Gateway" ∧
    errorMessage { response := some { status := 503, data := .absent },
                   code := some "ERR_BAD_RESPONSE",
                   message := some "Request failed with status code 503" }
      = "Request failed with status code 503" ∧
    "Bad Gateway" ≠ serverErrorMessage ∧
    "Request failed with status code 503" ≠ serverErrorMessage ∧
    (handleSubmitResolved
      (.failed { response := some { status := 502, data := .object (some "Bad Gateway") },
                 code := some "ERR_BAD_RESPONSE",
                 message := some "Request failed with status code 502" })
      AppState.initial).app.submitError = "Bad Gateway" := by
  decide

/-- C14 (amended): for every failed submission whose response carries the
status 500, the surfaced message is `Server error occurred. Please try
again later.`, whatever the response body, the error code and the error
message are. -/
theorem status_500_retry_later (data : Body) (code message : Option String) (st : AppState) :
    (handleSubmitResolved
      (.failed { response := some { status := 500, data := data }, code := code,
                 message := message }) st).app.submitError = serverErrorMessage := by
  simp [handleSubmitResolved, catchSubmit, errorMessage, serverErrorMessage]

/-- C15: the code breaks the claim.  The connectivity branch of the `catch`
block is taken for the error code `NETWORK_ERROR` or the status 0 and never
looks at whether a response is there.  An error without a response whose
code is `ERR_NETWORK` and whose message is `Network Error`, which is what
the request library raises when the server cannot be reached, surfaces
`Network Error`, and one with neither code nor message surfaces the generic
fallback; neither is the connectivity message. -/
theorem no_response_not_connectivity :
    errorMessage { response := none, code := some "ERR_NETWORK",
                   message := some "Network Error" } = "Network Error" ∧
    errorMessage { response := none, code := none, message := none }
      = genericSubmitMessage ∧
    "Network Error" ≠ connectivityMessage ∧
    genericSubmitMessage ≠ connectivityMessage ∧
    (handleSubmitResolved
      (.failed { response := none, code := some "ERR_NETWORK",
                 message := some "Network Error" })
      AppState.initial).app.submitError = "Network Error" := by
  decide

/-- What the `catch` block surfaces when no response was received: the
connectivity message when the error's code is `NETWORK_ERROR`, and otherwise
the error's own message when that is not empty, else the generic
fallback. -/
theorem no_response_message (code message : Option String) (st : AppState) :
    (handleSubmitResolved
      (.failed { response := none, code := code, message := message }) st).app.submitError
      = if code = some "NETWORK_ERROR" then connectivityMessage
        else strOr message genericSubmitMessage := by
  by_cases hc : code = some "NETWORK_ERROR" <;>
    simp [handleSubmitResolved, catchSubmit, errorMessage, connectivityMessage,
      genericSubmitMessage, hc]

/-- C16, as stated, fails: with status 400, a body that is an HTML page
surfaces a fixed message and not the body, and a missing body surfaces the
error's own message and not the generic fallback. -/
theorem other_status_not_passed_through :
    errorMessage { response := some { status := 400,
                                      data := .text "<html><body>Bad Request</body></html>" },
                   code := some "ERR_BAD_REQUEST",
                   message := some "Request failed with status code 400" }
      = htmlErrorMessage ∧
    htmlErrorMessage ≠ "<html><body>Bad Request</body></html>" ∧
    errorMessage { response := some { status := 400, data := .absent },
                   code := some "ERR_BAD_REQUEST",
                   message := some "Request failed with status code 400" }
      = "Request failed with status code 400" ∧
    "Request failed with status code 400" ≠ genericSubmitMessage ∧
    (handleSubmitResolved
      (.failed { response := some { status := 400,
                                    data := .text "<html><body>Bad Request</body></html>" },
                 code := some "ERR_BAD_REQUEST",
                 message := some "Request failed with status code 400" })
      AppState.initial).app.submitError = htmlErrorMessage := by
  decide

/-- C16 (amended): for every failed submission with a response whose status
is none of 404, 500 and 0 and whose error code is not `NETWORK_ERROR`: a
body with a non-empty `message` field surfaces exactly that message; a body
that is a non-empty string surfaces exactly that string, unless it contains
`<html>`, in which case a fixed message is surfaced; a body that is an
object without a message surfaces the generic fallback; and a missing or
empty body surfaces the error's own message when that is not empty, else
the generic fallback. -/
theorem other_status_message (status : Nat) (data : Body) (code message : Option String)
    (st : AppState)
    (h404 : status ≠ 404) (h500 : status ≠ 500) (h0 : status ≠ 0)
    (hcode : code ≠ some "NETWORK_ERROR") :
    (handleSubmitResolved
      (.failed { response := some { status := status, data := data }, code := code,
                 message := message }) st).app.submitError
      = match data with
        | .object (some msg) => if msg = "" then genericSubmitMessage else msg
        | .object none => genericSubmitMessage
        | .text s =>
          if s = "" then strOr message genericSubmitMessage
          else if jsIncludes s "<html>" then htmlErrorMessage
          else s
        | .absent => strOr message genericSubmitMessage := by
  cases data with
  | absent =>
    simp [handleSubmitResolved, catchSubmit, errorMessage, genericSubmitMessage, h404, h500,
      h0, hcode]
  | text s =>
    simp [handleSubmitResolved, catchSubmit, errorMessage, genericSubmitMessage,
      htmlErrorMessage, h404, h500, h0, hcode]
  | object m =>
    cases m <;>
      simp [handleSubmitResolved, catchSubmit, errorMessage, genericSubmitMessage, h404, h500,
        h0, hcode]

/-- A response with status 422 whose body carries the message
`koi: missing column`. -/
theorem other_status_message_witness :
    (422 : Nat) ≠ 404 ∧ (422 : Nat) ≠ 500 ∧ (422 : Nat) ≠ 0 ∧
    (handleSubmitResolved
      (.failed { response := some { status := 422,
                                    data := .object (some "koi: missing column") },
                 code := some "ERR_BAD_REQUEST",
                 message := some "Request failed with status code 422" })
      AppState.initial).app.submitError = "koi: missing column" :=
  ⟨by decide, by decide, by decide,
    other_status_message 422 (.object (some "koi: missing column")) (some "ERR_BAD_REQUEST")
      (some "Request failed with status code 422") AppState.initial
      (by decide) (by decide) (by decide) (by decide)⟩

/-! ## Completion -/

/-- C17: after a `done` status response, however the download attempt ends
(`d`), the controller reaches the succeeded state: `isLoading` is false,
`showResults` is true and `submitError` is empty.  The attempt to fetch the
bundle is made once, and a navigation to the download endpoint is among the
effects exactly when the fetch or the saving of the bundle failed; the
bundle is saved as `results.zip` exactly when it did not. -/
theorem done_reaches_succeeded (c : PollCfg) (s : StatusResponse) (d : DownloadResult)
    (hphase : c.poller.phase = .awaitingStatus) (hdone : s.state = some "done") :
    (pollerRun [.statusResolves (.resolved s), .downloadResolves d] c).app.isLoading = false ∧
    (pollerRun [.statusResolves (.resolved s), .downloadResolves d] c).app.showResults = true ∧
    (pollerRun [.statusResolves (.resolved s), .downloadResolves d] c).app.submitError = "" ∧
    (pollerRun [.statusResolves (.resolved s), .downloadResolves d] c).poller.phase
      = .stopped ∧
    (∃ tail, (pollerRun [.statusResolves (.resolved s), .downloadResolves d] c).log
        = c.log ++ .getDownload c.poller.fullDownloadUrl :: tail ∧
      (Effect.navigate c.poller.fullDownloadUrl ∈ tail ↔ d ≠ .saved) ∧
      (Effect.saveBlob "results.zip" ∈ tail ↔ d = .saved)) := by
  have h1 : pollerStep (.statusResolves (.resolved s)) c
      = { app := (pollOnStatus (.resolved s) c.app c.poller).app,
          poller := { c.poller with phase := .awaitingDownload },
          log := c.log ++ [.getDownload c.poller.fullDownloadUrl] } := by
    simp [pollerStep, hphase, PollCfg.after, pollOnStatus, hdone]
  simp only [pollerRun, List.foldl_cons, List.foldl_nil, h1]
  refine ⟨?_, ?_, ?_, ?_, ?_⟩
  · simp [pollerStep, PollCfg.after, pollOnDownload, closeModal]
  · simp [pollerStep, PollCfg.after, pollOnDownload, closeModal]
  · simp [pollerStep, PollCfg.after, pollOnDownload, closeModal]
  · simp [pollerStep, PollCfg.after, pollOnDownload, closeModal]
  · cases d <;> simp [pollerStep, PollCfg.after, pollOnDownload, closeModal]

/-- The first response of `pollingExample` is `done` and the fetch of the
bundle is rejected. -/
theorem done_reaches_succeeded_witness :
    pollingExample.poller.phase = .awaitingStatus ∧
    doneResponse.state = some "done" ∧
    (pollerRun [.statusResolves (.resolved doneResponse), .downloadResolves .fetchFailed]
      pollingExample).app.isLoading = false ∧
    (pollerRun [.statusResolves (.resolved doneResponse), .downloadResolves .fetchFailed]
      pollingExample).app.showResults = true ∧
    (pollerRun [.statusResolves (.resolved doneResponse), .downloadResolves .fetchFailed]
      pollingExample).app.submitError = "" :=
  have h := done_reaches_succeeded pollingExample doneResponse .fetchFailed rfl rfl
  ⟨rfl, rfl, h.1, h.2.1, h.2.2.1⟩

/-! ## CSV records -/

theorem Row.assign_nil {ν : Type} (key : String) (w : Field ν) :
    Row.assign ([] : Row ν) key w = if key = "__proto__" then [] else [(key, w)] := by
  rw [Row.assign]

theorem Row.assign_cons {ν : Type} (k : String) (u : Field ν) (rest : Row ν) (key : String)
    (w : Field ν) :
    Row.assign ((k, u) :: rest) key w
      = if key = "__proto__" then (k, u) :: rest
        else if k = key then (k, w) :: rest else (k, u) :: Row.assign rest key w := by
  rw [Row.assign]

theorem Row.mem_assign {ν : Type} (row : Row ν) (key : String) (w : Field ν)
    (h : String) (v : Field ν) (hmem : (h, v) ∈ Row.assign row key w) :
    (h, v) ∈ row ∨ (h, v) = (key, w) := by
  induction row with
  | nil =>
    rw [Row.assign_nil] at hmem
    split_ifs at hmem
    · exact Or.inl hmem
    · exact Or.inr (List.mem_singleton.mp hmem)
  | cons kv rest ih =>
    obtain ⟨k, u⟩ := kv
    rw [Row.assign_cons] at hmem
    split_ifs at hmem with hp hk
    · exact Or.inl hmem
    · rcases List.mem_cons.mp hmem with h1 | h1
      · right
        rw [h1, hk]
      · exact Or.inl (List.mem_cons_of_mem _ h1)
    · rcases List.mem_cons.mp hmem with h1 | h1
      · left
        rw [h1]
        exact List.mem_cons_self _ _
      · rcases ih h1 with h2 | h2
        · exact Or.inl (List.mem_cons_of_mem _ h2)
        · exact Or.inr h2

/-- Every field of the record the header loop builds was in the record
before the loop or was written for one of the headers visited. -/
theorem forEachHeader_mem {ν : Type} [Zero ν] (parseFloat : String → Option ν)
    (values : List String) (P : String → Field ν → Prop) :
    ∀ (headers : List String) (index : Nat) (row : Row ν),
      (∀ h v, (h, v) ∈ row → P h v) →
      (∀ j h, headers.get? j = some h →
        P h (cellValue parseFloat h (cellAt values (index + j)))) →
      ∀ h v, (h, v) ∈ forEachHeader parseFloat values headers index row → P h v := by
  intro headers
  induction headers with
  | nil => intro index row hrow _ h v hmem; exact hrow h v hmem
  | cons header rest ih =>
    intro index row hrow hnew h v hmem
    unfold forEachHeader at hmem
    refine ih (index + 1) _ ?_ ?_ h v hmem
    · intro h1 v1 h1mem
      rcases Row.mem_assign _ _ _ _ _ h1mem with h2 | h2
      · exact hrow h1 v1 h2
      · have h3 := hnew 0 header rfl
        simp only [Prod.mk.injEq] at h2
        rw [h2.1, h2.2]
        simpa using h3
    · intro j h1 hj
      have h3 := hnew (j + 1) h1 (by simpa using hj)
      have : index + (j + 1) = index + 1 + j := by omega
      rw [this] at h3
      exact h3

/-- C20: for every CSV text and every field `(header, v)` of every record
`parseCSV` returns, there are a data line and a column `index` under that
header such that: if the header is one of prob, label, P_days, Dur_hr,
Rp_Re, Teff_K, Depth_ppm, Rstar_Rsun, then `v` is a number, the parsed value
when the cell parses as a number and 0 when it does not; under any other
header `v` is the cell text.  The cell is the trimmed text of the line's
piece at `index`, and the empty string (which does not parse) when the
line has no such piece. -/
theorem parseCSV_field {ν : Type} [Zero ν] (parseFloat : String → Option ν)
    (hempty : parseFloat "" = none)
    (csvText : String) (row : Row ν) (header : String) (v : Field ν)
    (hrow : row ∈ parseCSV parseFloat csvText) (hfield : (header, v) ∈ row) :
    ∃ line index,
      line ∈ (csvLines csvText).drop 1 ∧
      (csvHeaders csvText).get? index = some header ∧
      (header ∈ numericFields →
        (∀ x, parseFloat (cellAt (cells line) index) = some x → v = .number x) ∧
        (parseFloat (cellAt (cells line) index) = none → v = .number 0)) ∧
      (header ∉ numericFields → v = .text (cellAt (cells line) index)) ∧
      (∀ piece, (jsSplit line ',').get? index = some piece →
        cellAt (cells line) index = jsTrim piece) ∧
      ((jsSplit line ',').get? index = none →
        cellAt (cells line) index = "" ∧
        (header ∈ numericFields → v = .number 0)) := by
  unfold parseCSV at hrow
  split_ifs at hrow
  · simp at hrow
  · obtain ⟨line, hline, rfl⟩ := List.mem_map.mp hrow
    have key := forEachHeader_mem parseFloat (cells line)
      (fun h v => ∃ index, (csvHeaders csvText).get? index = some h ∧
        v = cellValue parseFloat h (cellAt (cells line) index))
      (csvHeaders csvText) 0 [] (by intro h v hm; simp at hm)
      (by intro j h hj; exact ⟨j, hj, by simp⟩) header v hfield
    obtain ⟨index, hidx, hv⟩ := key
    have hmissing : (jsSplit line ',').get? index = none → cellAt (cells line) index = "" := by
      intro hnone
      rw [List.get?_eq_getElem?] at hnone
      simp [cellAt, cells, hnone]
    refine ⟨line, index, hline, hidx, ?_, ?_, ?_, ?_⟩
    · intro hnum
      constructor
      · intro x hx
        simp [hv, cellValue, hnum, hx]
      · intro hx
        simp [hv, cellValue, hnum, hx]
    · intro hnum
      simp [hv, cellValue, hnum]
    · intro piece hpiece
      rw [List.get?_eq_getElem?] at hpiece
      simp [cellAt, cells, hpiece]
    · intro hnone
      refine ⟨hmissing hnone, ?_⟩
      intro hnum
      simp [hv, cellValue, hnum, hmissing hnone, hempty]

/-- The second record of `sampleCsv`: its `prob` cell reads `n/a`, which is
not a number, and the field is 0. -/
theorem parseCSV_field_witness :
    wholeNumber "" = none ∧
    [("name", Field.text "K-2"), ("prob", Field.number 0)] ∈ parseCSV wholeNumber sampleCsv ∧
    ∃ line index,
      line ∈ (csvLines sampleCsv).drop 1 ∧
      (csvHeaders sampleCsv).get? index = some "prob" ∧
      ("prob" ∈ numericFields →
        (∀ x, wholeNumber (cellAt (cells line) index) = some x →
          Field.number (0 : Int) = .number x) ∧
        (wholeNumber (cellAt (cells line) index) = none →
          Field.number (0 : Int) = .number 0)) ∧
      ("prob" ∉ numericFields →
        Field.number (0 : Int) = .text (cellAt (cells line) index)) ∧
      (∀ piece, (jsSplit line ',').get? index = some piece →
        cellAt (cells line) index = jsTrim piece) ∧
      ((jsSplit line ',').get? index = none →
        cellAt (cells line) index = "" ∧
        ("prob" ∈ numericFields → Field.number (0 : Int) = .number 0)) :=
  ⟨by decide, by decide,
    parseCSV_field wholeNumber (by decide) sampleCsv
      [("name", Field.text "K-2"), ("prob", Field.number 0)] "prob" (.number 0)
      (by decide) (by decide)⟩

/-! ## One job at a time -/

theorem countP_set_balance {α : Type} (f : α → Bool) (q : α) :
    ∀ (l : List α) (i : Nat) (p : α), l.get? i = some p →
      (l.set i q).countP f + (if f p then 1 else 0) = l.countP f + (if f q then 1 else 0) := by
  intro l
  induction l with
  | nil => intro i p h; simp at h
  | cons a l ih =>
    intro i p h
    cases i with
    | zero =>
      simp at h
      subst h
      simp [List.countP_cons]
      omega
    | succ i =>
      have h1 : l.get? i = some p := by simpa using h
      have := ih i p h1
      simp [List.countP_cons]
      omega

theorem pollerStep_inactive (e : PollerEvent) (c : PollCfg) (h : c.poller.isActive = false) :
    (pollerStep e c).app = c.app ∧ (pollerStep e c).poller.isActive = false := by
  have hp : c.poller.phase = .stopped := by
    unfold Poller.isActive at h
    split at h
    · assumption
    · cases h
  cases e <;> simp [pollerStep, hp, Poller.isActive]

theorem pollOnStatus_submitting (r : StatusResult) (st : AppState) (p : Poller) :
    (pollOnStatus r st p).app.isSubmitting = st.isSubmitting := by
  cases r with
  | rejected => simp [pollOnStatus]
  | resolved s =>
    unfold pollOnStatus
    simp only
    split_ifs <;> cases s.progress <;> rfl

theorem pollerStep_submitting (e : PollerEvent) (c : PollCfg) :
    (pollerStep e c).app.isSubmitting = c.app.isSubmitting := by
  cases e <;> cases hp : c.poller.phase <;>
    simp [pollerStep, hp, PollCfg.after, poll, pollOnStatus_submitting, pollOnDownload,
      closeModal]
  split_ifs <;> rfl

theorem pollOnStatus_active_loading (r : StatusResult) (st : AppState) (p : Poller)
    (h : (pollOnStatus r st p).poller.isActive = true) :
    (pollOnStatus r st p).app.isLoading = st.isLoading := by
  cases r with
  | rejected => simp [pollOnStatus, Poller.isActive] at h
  | resolved s =>
    unfold pollOnStatus at h ⊢
    simp only at h ⊢
    split_ifs at h ⊢
    · cases s.progress <;> rfl
    · simp [Poller.isActive] at h
    · cases s.progress <;> rfl

theorem pollerStep_active_loading (e : PollerEvent) (c : PollCfg)
    (h : (pollerStep e c).poller.isActive = true) :
    (pollerStep e c).app.isLoading = c.app.isLoading := by
  cases e <;> cases hp : c.poller.phase <;>
    simp [pollerStep, hp, PollCfg.after] at h ⊢
  · exact pollOnStatus_active_loading _ _ _ h
  · simp only [poll]; split_ifs <;> rfl
  · simp [pollOnDownload, Poller.isActive] at h

theorem Inv_frame (s t : Sys) (h1 : t.postsInFlight = s.postsInFlight)
    (h2 : t.pollers = s.pollers) (h3 : coreOf t.app = coreOf s.app) (h : s.Inv) : t.Inv := by
  simp only [coreOf, Prod.mk.injEq] at h3
  obtain ⟨a, b, c⟩ := h3
  simpa only [Sys.Inv, activePollers, h1, h2, a, b, c] using h

theorem makeFileChangeHandler_core (slot : Slot) (file : Option File) (st : AppState) :
    coreOf (makeFileChangeHandler slot file st) = coreOf st := by
  cases slot <;> cases file <;> rfl

theorem demoOnChange_core (slot : Slot) (checked : Bool) (st : AppState) :
    coreOf (demoOnChange slot checked st) = coreOf st := by
  cases slot <;> cases checked <;> rfl

theorem clearOnClick_core (slot : Slot) (st : AppState) :
    coreOf (clearOnClick slot st) = coreOf st := by
  cases slot <;> rfl

theorem active_pos_of_get {l : List Poller} {i : Nat} {p : Poller}
    (hget : l.get? i = some p) (hact : p.isActive = true) : 0 < l.countP Poller.isActive := by
  rw [List.countP_pos_iff]
  exact ⟨p, List.get?_mem hget, hact⟩

theorem set_ne_nil_of_get {l : List Poller} {i : Nat} {p q : Poller}
    (hget : l.get? i = some p) : l.set i q ≠ [] := by
  intro h
  have hl : (l.set i q).length = 0 := by rw [h]; rfl
  rw [List.length_set] at hl
  have : l = [] := List.length_eq_zero.mp hl
  rw [this] at hget
  simp at hget

/-- Every event keeps the invariant. -/
theorem step_inv (e : Event) (s : Sys) (h : s.Inv) : (Sys.step e s).Inv := by
  cases e with
  | openModalClick =>
    unfold Sys.step; simp only
    split_ifs
    · exact h
    · exact Inv_frame s _ rfl rfl rfl h
  | closeModalRequest => exact Inv_frame s _ rfl rfl rfl h
  | animationFrame =>
    unfold Sys.step; simp only
    split_ifs
    · exact h
    · exact Inv_frame s _ rfl rfl rfl h
  | hideTimerFires =>
    unfold Sys.step; simp only
    split_ifs
    · exact Inv_frame s _ rfl rfl rfl h
    · exact h
  | shakeTimerFires =>
    unfold Sys.step; simp only
    split_ifs
    · exact h
    · exact Inv_frame s _ rfl rfl rfl h
  | fileChange slot file =>
    unfold Sys.step; simp only
    split_ifs
    · exact Inv_frame s _ rfl rfl (makeFileChangeHandler_core slot file s.app) h
    · exact h
  | demoChange slot checked =>
    unfold Sys.step; simp only
    split_ifs
    · exact Inv_frame s _ rfl rfl (demoOnChange_core slot checked s.app) h
    · exact h
  | clearClick slot =>
    unfold Sys.step; simp only
    split_ifs
    · exact Inv_frame s _ rfl rfl (clearOnClick_core slot s.app) h
    · exact h
  | targetLimitsChange value =>
    unfold Sys.step; simp only
    split_ifs
    · exact Inv_frame s _ rfl rfl rfl h
    · exact h
  | seedChange value =>
    unfold Sys.step; simp only
    split_ifs
    · exact Inv_frame s _ rfl rfl rfl h
    · exact h
  | submitClick =>
    by_cases hen : (dialogShown s.app && !s.app.isSubmitting) = true
    · obtain ⟨hposts, hone, hload, hfresh⟩ := h
      have hsub : s.app.isSubmitting = false := by
        simp only [Bool.and_eq_true, Bool.not_eq_true'] at hen
        exact hen.2
      have hnl : s.app.isLoading = false := by
        simp only [dialogShown, Bool.and_eq_true, Bool.not_eq_true'] at hen
        exact hen.1.1.2
      have hzero : activePollers s = 0 := by
        by_contra hne
        have := hload (Nat.pos_of_ne_zero hne)
        rw [hnl] at this
        cases this
      have hp0 : s.postsInFlight = 0 := by
        rcases hposts with hp | hp
        · exact hp
        · rw [hsub] at hp
          cases hp.2.1
      by_cases hany : hasAny s.app = true
      · have hstep : Sys.step .submitClick s
            = { s with app := (handleSubmitClick s.app).app
                       postsInFlight := s.postsInFlight + 1
                       log := s.log ++ (handleSubmitClick s.app).effects } := by
          simp [Sys.step, hen, handleSubmitClick, hany]
        rw [hstep]
        refine ⟨Or.inr ⟨by simp [hp0], ?_, ?_, hzero⟩, hone, ?_, ?_⟩
        · simp [handleSubmitClick, hany]
        · simp [handleSubmitClick, hany]
        · intro hpos
          exact absurd hpos (by simp only [activePollers] at hzero ⊢; omega)
        · intro _
          simp [handleSubmitClick, hany]
      · have hstep : Sys.step .submitClick s
            = { s with app := (handleSubmitClick s.app).app
                       pendingShakes := s.pendingShakes + 1
                       log := s.log ++ (handleSubmitClick s.app).effects } := by
          simp [Sys.step, hen, handleSubmitClick, hany]
        rw [hstep]
        refine Inv_frame s _ rfl rfl ?_ ⟨hposts, hone, hload, hfresh⟩
        simp [handleSubmitClick, hany, coreOf]
    · have hstep : Sys.step .submitClick s = s := by
        simp only [Sys.step, hen]
        simp
      rw [hstep]
      exact h
  | postResolves r =>
    by_cases hz : s.postsInFlight = 0
    · have hstep : Sys.step (.postResolves r) s = s := by simp [Sys.step, hz]
      rw [hstep]
      exact h
    · obtain ⟨hposts, hone, hload, hfresh⟩ := h
      rcases hposts with hp | ⟨hp1, hsub, hprog, hzero⟩
      · exact absurd hp hz
      · have hstep : Sys.step (.postResolves r) s
            = { s with app := (handleSubmitResolved r s.app).app
                       postsInFlight := s.postsInFlight - 1
                       pollers := s.pollers ++ (handleSubmitResolved r s.app).poller.toList
                       log := s.log ++ (handleSubmitResolved r s.app).effects } := by
          simp [Sys.step, hz]
        rw [hstep]
        have hcatch : ∀ err, Sys.Inv
            { s with app := (catchSubmit err s.app).app
                     postsInFlight := s.postsInFlight - 1
                     pollers := s.pollers ++ (catchSubmit err s.app).poller.toList
                     log := s.log ++ (catchSubmit err s.app).effects } := by
          intro err
          refine ⟨Or.inl (by simp [hp1]), ?_, ?_, ?_⟩
          · simpa [activePollers, catchSubmit] using hone
          · intro hpos
            simp only [activePollers, catchSubmit, Option.toList, List.append_nil] at hpos
            simp only [activePollers] at hzero
            omega
          · intro _
            simpa [catchSubmit] using hprog
        cases r with
        | failed err => exact hcatch err
        | ok data =>
          cases hs : data.status_url with
          | none =>
            have : handleSubmitResolved (.ok data) s.app = catchSubmit missingUrlError s.app := by
              simp [handleSubmitResolved, hs]
            rw [this]
            exact hcatch _
          | some su =>
            cases hd : data.download_url with
            | none =>
              have : handleSubmitResolved (.ok data) s.app
                  = catchSubmit missingUrlError s.app := by
                simp [handleSubmitResolved, hs, hd]
              rw [this]
              exact hcatch _
            | some du =>
              simp only [activePollers] at hzero
              refine ⟨Or.inl (by simp [hp1]), ?_, ?_, ?_⟩
              · simp [activePollers, handleSubmitResolved, hs, hd, poll, List.countP_append,
                  hzero, Poller.isActive]
              · intro _
                simp [handleSubmitResolved, hs, hd, poll]
              · intro hnil
                simp [handleSubmitResolved, hs, hd, poll] at hnil
  | poller i pe =>
    cases hget : s.pollers.get? i with
    | none =>
      have hstep : Sys.step (.poller i pe) s = s := by simp only [Sys.step, hget]
      rw [hstep]
      exact h
    | some p =>
      have hstep : Sys.step (.poller i pe) s
          = { s with app := (pollerStep pe { app := s.app, poller := p, log := s.log }).app
                     pollers := s.pollers.set i
                       (pollerStep pe { app := s.app, poller := p, log := s.log }).poller
                     log := (pollerStep pe { app := s.app, poller := p, log := s.log }).log } := by
        simp only [Sys.step, hget]
      rw [hstep]
      obtain ⟨hposts, hone, hload, hfresh⟩ := h
      have hbal := countP_set_balance Poller.isActive
        (pollerStep pe { app := s.app, poller := p, log := s.log }).poller s.pollers i p hget
      simp only [activePollers] at hposts hone hload
      by_cases hact : p.isActive = true
      · have hpos := active_pos_of_get hget hact
        have hp0 : s.postsInFlight = 0 := by
          rcases hposts with hp | hp
          · exact hp
          · omega
        have hl := hload hpos
        simp only [hact, if_true] at hbal
        by_cases hact2 :
            (pollerStep pe { app := s.app, poller := p, log := s.log }).poller.isActive = true
        · simp only [hact2, if_true] at hbal
          refine ⟨Or.inl hp0, ?_, ?_, ?_⟩
          · simp only [activePollers]; omega
          · intro _
            have := pollerStep_active_loading pe { app := s.app, poller := p, log := s.log } hact2
            simp only at this ⊢
            rw [this]
            exact hl
          · intro hnil
            exact absurd hnil (set_ne_nil_of_get hget)
        · have hact3 :
              (pollerStep pe { app := s.app, poller := p, log := s.log }).poller.isActive
                = false := by simpa using hact2
          rw [hact3] at hbal
          simp only [Bool.false_eq_true, if_false] at hbal
          refine ⟨Or.inl hp0, ?_, ?_, ?_⟩
          · simp only [activePollers]; omega
          · intro hpos2
            simp only [activePollers] at hpos2
            omega
          · intro hnil
            exact absurd hnil (set_ne_nil_of_get hget)
      · have hact0 : p.isActive = false := by simpa using hact
        obtain ⟨happ, hin⟩ :=
          pollerStep_inactive pe { app := s.app, poller := p, log := s.log } hact0
        rw [hact0, hin] at hbal
        simp only [Bool.false_eq_true, if_false, Nat.add_zero] at hbal
        simp only at happ
        refine ⟨?_, ?_, ?_, ?_⟩
        · simpa only [activePollers, happ, hbal] using hposts
        · simpa only [activePollers, hbal] using hone
        · simpa only [activePollers, happ, hbal] using hload
        · intro hnil
          exact absurd hnil (set_ne_nil_of_get hget)

theorem run_inv (es : List Event) : ∀ s : Sys, s.Inv → (Sys.run es s).Inv := by
  induction es with
  | nil => intro s h; exact h
  | cons e es ih => intro s h; exact ih _ (step_inv e s h)

theorem reachable_inv (s : Sys) (h : Reachable s) : s.Inv := by
  obtain ⟨es, rfl⟩ := h
  exact run_inv es Sys.initial
    ⟨Or.inl rfl, by decide, by intro h; exact absurd h (by decide), fun _ => rfl⟩

theorem pollerStep_flag (pe : PollerEvent) (c : PollCfg) (h : pe ≠ .cancel) :
    (pollerStep pe c).poller.cancelled = c.poller.cancelled := by
  cases pe <;> cases hp : c.poller.phase <;>
    simp [pollerStep, hp, PollCfg.after, pollOnStatus_flag, pollOnDownload_flag] at h ⊢
  simp only [poll]
  split_ifs <;> rfl

/-- No event other than a call of the function `handleSubmitClick` returns
changes the cancellation flag of a poller. -/
theorem step_keeps_flags (e : Event) (s : Sys) (i : Nat) (p : Poller)
    (hget : s.pollers.get? i = some p) (hcancel : ∀ j, e ≠ .poller j .cancel) :
    ∃ q, (Sys.step e s).pollers.get? i = some q ∧ q.cancelled = p.cancelled := by
  have hsame : (Sys.step e s).pollers = s.pollers →
      ∃ q, (Sys.step e s).pollers.get? i = some q ∧ q.cancelled = p.cancelled := by
    intro h
    exact ⟨p, by rw [h]; exact hget, rfl⟩
  cases e with
  | openModalClick => apply hsame; unfold Sys.step; simp only; split_ifs <;> rfl
  | closeModalRequest => exact hsame rfl
  | animationFrame => apply hsame; unfold Sys.step; simp only; split_ifs <;> rfl
  | hideTimerFires => apply hsame; unfold Sys.step; simp only; split_ifs <;> rfl
  | shakeTimerFires => apply hsame; unfold Sys.step; simp only; split_ifs <;> rfl
  | fileChange slot file => apply hsame; unfold Sys.step; simp only; split_ifs <;> rfl
  | demoChange slot checked => apply hsame; unfold Sys.step; simp only; split_ifs <;> rfl
  | clearClick slot => apply hsame; unfold Sys.step; simp only; split_ifs <;> rfl
  | targetLimitsChange value => apply hsame; unfold Sys.step; simp only; split_ifs <;> rfl
  | seedChange value => apply hsame; unfold Sys.step; simp only; split_ifs <;> rfl
  | submitClick =>
    apply hsame
    by_cases hen : (dialogShown s.app && !s.app.isSubmitting) = true
    · simp only [Sys.step, hen, if_true]
    · simp only [Sys.step, hen]
      simp
  | postResolves r =>
    by_cases hz : s.postsInFlight = 0
    · apply hsame
      simp [Sys.step, hz]
    · refine ⟨p, ?_, rfl⟩
      have hlt : i < s.pollers.length := by
        rw [List.get?_eq_getElem?] at hget
        exact (List.getElem?_eq_some_iff.mp hget).1
      simp only [Sys.step, hz, if_false]
      rw [List.get?_eq_getElem?, List.getElem?_append_left hlt, ← List.get?_eq_getElem?]
      exact hget
  | poller j pe =>
    cases hj : s.pollers.get? j with
    | none =>
      apply hsame
      simp only [Sys.step, hj]
    | some pj =>
      simp only [Sys.step, hj]
      by_cases hij : j = i
      · subst hij
        rw [hget] at hj
        cases hj
        have hlt : j < s.pollers.length := by
          rw [List.get?_eq_getElem?] at hget
          exact (List.getElem?_eq_some_iff.mp hget).1
        refine ⟨_, ?_, pollerStep_flag pe { app := s.app, poller := p, log := s.log } ?_⟩
        · rw [List.get?_eq_getElem?, List.getElem?_set_self hlt]
        · intro hc
          exact hcancel j (by rw [hc])
      · refine ⟨p, ?_, rfl⟩
        rw [List.get?_eq_getElem?, List.getElem?_set_ne hij, ← List.get?_eq_getElem?]
        exact hget

/-- In every reachable state in which a poller is scheduled or in flight,
the controller is loading, the upload dialog with its submit button is not
rendered, a submit click changes nothing and no submission is suspended, so
no new submission can start before that poller has stopped; and no event
other than a call of the function `handleSubmitClick` returns changes the
poller's cancellation flag. -/
theorem no_submission_while_polling (s : Sys) (i : Nat) (p : Poller) (e : Event)
    (hreach : Reachable s) (hget : s.pollers.get? i = some p) (hactive : p.phase ≠ .stopped)
    (hcancel : ∀ j, e ≠ .poller j .cancel) :
    s.app.isLoading = true ∧
    dialogShown s.app = false ∧
    Sys.step .submitClick s = s ∧
    s.postsInFlight = 0 ∧
    ∃ q, (Sys.step e s).pollers.get? i = some q ∧ q.cancelled = p.cancelled := by
  obtain ⟨hposts, _, hload, _⟩ := reachable_inv s hreach
  have hact : p.isActive = true := by
    unfold Poller.isActive
    split
    · rename_i hp; exact absurd hp hactive
    · rfl
  have hpos : 0 < activePollers s := active_pos_of_get hget hact
  have hl := hload hpos
  have hd : dialogShown s.app = false := by simp [dialogShown, hl]
  refine ⟨hl, hd, ?_, ?_, step_keeps_flags e s i p hget hcancel⟩
  · simp [Sys.step, hd]
  · rcases hposts with h0 | h1
    · exact h0
    · omega

/-- The component of `pollingSys`, whose poller has its first status request
in flight, at a click on the submit button. -/
theorem no_submission_while_polling_witness :
    Reachable pollingSys ∧
    pollingSys.app.isLoading = true ∧
    dialogShown pollingSys.app = false ∧
    Sys.step .submitClick pollingSys = pollingSys ∧
    pollingSys.postsInFlight = 0 ∧
    ∃ q, (Sys.step .submitClick pollingSys).pollers.get? 0 = some q ∧ q.cancelled = false :=
  ⟨⟨_, rfl⟩,
    no_submission_while_polling pollingSys 0
      { fullStatusUrl := baseUrl ++ "/api/jobs/abc123/status"
        fullDownloadUrl := baseUrl ++ "/api/jobs/abc123/download"
        interval := 200, cancelled := false, phase := .awaitingStatus }
      .submitClick ⟨_, rfl⟩ (by decide) (by decide) (by intro j h; cases h)⟩

/-! ## The progress snapshot -/

/-- C19, as stated, fails: in the reachable state after the scenario run and
an `error` response the job has failed and the snapshot is still present;
after a `done` response and a saved bundle the job has succeeded and the
snapshot is still present; and it is still present when the dialog has been
closed after the failure and the controller is idle again. -/
theorem progress_outlives_polling :
    Reachable (Sys.run failedRun Sys.initial) ∧
    (Sys.run failedRun Sys.initial).app.isLoading = false ∧
    (Sys.run failedRun Sys.initial).app.isSubmitting = false ∧
    (Sys.run failedRun Sys.initial).app.submitError = "bad data" ∧
    (Sys.run failedRun Sys.initial).app.progress = some scanningProgress ∧
    Reachable (Sys.run succeededRun Sys.initial) ∧
    (Sys.run succeededRun Sys.initial).app.isLoading = false ∧
    (Sys.run succeededRun Sys.initial).app.showResults = true ∧
    (Sys.run succeededRun Sys.initial).app.progress = some scanningProgress ∧
    (Sys.run (failedRun ++ [.closeModalRequest]) Sys.initial).app.submitError = "" ∧
    (Sys.run (failedRun ++ [.closeModalRequest]) Sys.initial).app.isLoading = false ∧
    (Sys.run (failedRun ++ [.closeModalRequest]) Sys.initial).app.isSubmitting = false ∧
    (Sys.run (failedRun ++ [.closeModalRequest]) Sys.initial).app.progress
      = some scanningProgress ∧
    activePollers (Sys.run (failedRun ++ [.closeModalRequest]) Sys.initial) = 0 :=
  ⟨⟨_, rfl⟩, by decide, rfl, by decide, rfl, ⟨_, rfl⟩, by decide, by decide, rfl, rfl,
    by decide, rfl, rfl, by decide⟩

theorem pollerStep_progress (pe : PollerEvent) (c : PollCfg) :
    (pollerStep pe c).app.progress = c.app.progress ∨
    ∃ r pr, pe = .statusResolves (.resolved r) ∧ r.progress = some pr ∧
      (pollerStep pe c).app.progress = some pr := by
  cases pe with
  | timerFires =>
    left
    cases hp : c.poller.phase <;> simp [pollerStep, hp, PollCfg.after, poll]
    split_ifs <;> rfl
  | downloadResolves d =>
    left
    cases hp : c.poller.phase <;>
      simp [pollerStep, hp, PollCfg.after, pollOnDownload, closeModal]
  | cancel =>
    left
    cases hp : c.poller.phase <;> simp [pollerStep, hp]
  | statusResolves r =>
    cases hp : c.poller.phase with
    | awaitingStatus =>
      cases r with
      | rejected => left; simp [pollerStep, hp, PollCfg.after, pollOnStatus]
      | resolved s =>
        cases hs : s.progress with
        | none =>
          left
          simp only [pollerStep, hp, PollCfg.after, pollOnStatus, hs]
          split_ifs <;> rfl
        | some pr =>
          right
          refine ⟨s, pr, rfl, hs, ?_⟩
          simp only [pollerStep, hp, PollCfg.after, pollOnStatus, hs]
          split_ifs <;> rfl
    | awaitingDownload => left; simp [pollerStep, hp]
    | scheduled => left; simp [pollerStep, hp]
    | stopped => left; simp [pollerStep, hp]

theorem handleSubmitResolved_progress (r : SubmitResult) (st : AppState) :
    (handleSubmitResolved r st).app.progress = st.progress := by
  cases r with
  | failed err => simp [handleSubmitResolved, catchSubmit]
  | ok data =>
    unfold handleSubmitResolved
    simp only
    split <;> simp [catchSubmit, poll]

/-- The snapshot changes in two ways only: a click on the submit button
empties it, and a status response that carries a progress object replaces
it by that object. -/
theorem step_progress (e : Event) (s : Sys) :
    (Sys.step e s).app.progress = s.app.progress ∨
    (e = .submitClick ∧ (Sys.step e s).app.progress = none) ∨
    ∃ i r pr, e = .poller i (.statusResolves (.resolved r)) ∧ r.progress = some pr ∧
      (Sys.step e s).app.progress = some pr := by
  have hcore : ∀ t : Sys, coreOf t.app = coreOf s.app → t.app.progress = s.app.progress := by
    intro t h
    simp only [coreOf, Prod.mk.injEq] at h
    exact h.2.2
  cases e with
  | openModalClick => left; unfold Sys.step; simp only; split_ifs <;> rfl
  | closeModalRequest => left; rfl
  | animationFrame => left; unfold Sys.step; simp only; split_ifs <;> rfl
  | hideTimerFires => left; unfold Sys.step; simp only; split_ifs <;> rfl
  | shakeTimerFires => left; unfold Sys.step; simp only; split_ifs <;> rfl
  | fileChange slot file =>
    left; unfold Sys.step; simp only
    split_ifs
    · exact hcore _ (makeFileChangeHandler_core slot file s.app)
    · rfl
  | demoChange slot checked =>
    left; unfold Sys.step; simp only
    split_ifs
    · exact hcore _ (demoOnChange_core slot checked s.app)
    · rfl
  | clearClick slot =>
    left; unfold Sys.step; simp only
    split_ifs
    · exact hcore _ (clearOnClick_core slot s.app)
    · rfl
  | targetLimitsChange value => left; unfold Sys.step; simp only; split_ifs <;> rfl
  | seedChange value => left; unfold Sys.step; simp only; split_ifs <;> rfl
  | submitClick =>
    by_cases hen : (dialogShown s.app && !s.app.isSubmitting) = true
    · by_cases hany : hasAny s.app = true
      · right; left
        refine ⟨rfl, ?_⟩
        simp [Sys.step, hen, handleSubmitClick, hany]
      · left
        simp [Sys.step, hen, handleSubmitClick, hany]
    · left
      have hstep : Sys.step .submitClick s = s := by
        simp only [Sys.step, hen]
        simp
      rw [hstep]
  | postResolves r =>
    left
    by_cases hz : s.postsInFlight = 0
    · simp [Sys.step, hz]
    · simp only [Sys.step, hz, if_false]
      exact handleSubmitResolved_progress r s.app
  | poller i pe =>
    cases hget : s.pollers.get? i with
    | none => left; simp only [Sys.step, hget]
    | some p =>
      simp only [Sys.step, hget]
      rcases pollerStep_progress pe { app := s.app, poller := p, log := s.log } with h | h
      · exact Or.inl h
      · obtain ⟨r, pr, hpe, hr, hpr⟩ := h
        exact Or.inr (Or.inr ⟨i, r, pr, by rw [hpe], hr, hpr⟩)

/-- C19 (amended): in every reachable state the progress snapshot is absent
before the first poller has been started and while a submission is
suspended at its request; it becomes present only through a status response
that carries a progress object, and it is emptied only by a click on the
submit button that starts a submission.  It is therefore kept when the job
has failed or succeeded, until the next submission starts. -/
theorem progress_lifecycle (s : Sys) (e : Event) (hreach : Reachable s) :
    (s.pollers = [] → s.app.progress = none) ∧
    (0 < s.postsInFlight → s.app.progress = none) ∧
    ((Sys.step e s).app.progress = s.app.progress ∨
      (e = .submitClick ∧ (Sys.step e s).app.progress = none) ∨
      ∃ i r pr, e = .poller i (.statusResolves (.resolved r)) ∧ r.progress = some pr ∧
        (Sys.step e s).app.progress = some pr) := by
  obtain ⟨hposts, _, _, hfresh⟩ := reachable_inv s hreach
  refine ⟨hfresh, ?_, step_progress e s⟩
  intro hpos
  rcases hposts with h0 | h1
  · omega
  · exact h1.2.2.1

/-- The component after the submit click of the scenario run, its request
still unanswered. -/
theorem progress_lifecycle_witness :
    Reachable (Sys.run (scenarioRun.take 3) Sys.initial) ∧
    0 < (Sys.run (scenarioRun.take 3) Sys.initial).postsInFlight ∧
    (Sys.run (scenarioRun.take 3) Sys.initial).app.progress = none :=
  ⟨⟨_, rfl⟩, by decide,
    (progress_lifecycle (Sys.run (scenarioRun.take 3) Sys.initial) .submitClick
      ⟨_, rfl⟩).2.1 (by decide)⟩

/-! ## Rescheduling -/

theorem pollOnStatus_closure (r : StatusResult) (st : AppState) (p : Poller) :
    (pollOnStatus r st p).poller.fullStatusUrl = p.fullStatusUrl ∧
    (pollOnStatus r st p).poller.interval = p.interval := by
  cases r with
  | rejected => simp [pollOnStatus]
  | resolved s =>
    unfold pollOnStatus
    simp only
    split_ifs <;> exact ⟨rfl, rfl⟩

/-- No event changes the status address or the interval of a poller. -/
theorem pollerStep_closure (e : PollerEvent) (c : PollCfg) :
    (pollerStep e c).poller.fullStatusUrl = c.poller.fullStatusUrl ∧
    (pollerStep e c).poller.interval = c.poller.interval := by
  cases e <;> cases hp : c.poller.phase <;>
    simp [pollerStep, hp, PollCfg.after, pollOnStatus_closure, pollOnDownload]
  simp only [poll]
  split_ifs <;> exact ⟨rfl, rfl⟩

theorem pollerRun_closure (es : List PollerEvent) :
    ∀ c : PollCfg,
      (pollerRun es c).poller.fullStatusUrl = c.poller.fullStatusUrl ∧
      (pollerRun es c).poller.interval = c.poller.interval := by
  induction es with
  | nil => intro c; exact ⟨rfl, rfl⟩
  | cons e es ih =>
    intro c
    rw [pollerRun_cons]
    exact ⟨(ih _).1.trans (pollerStep_closure e c).1, (ih _).2.trans (pollerStep_closure e c).2⟩

theorem pollOnStatus_not_awaiting (r : StatusResult) (st : AppState) (p : Poller) :
    (pollOnStatus r st p).poller.phase ≠ .awaitingStatus := by
  cases r with
  | rejected => simp [pollOnStatus]
  | resolved s =>
    unfold pollOnStatus
    simp only
    split_ifs <;> simp

/-- Each event keeps the balance between the status requests issued, the
requests answered and the request in flight. -/
theorem inFlight_step (e : PollerEvent) (c : PollCfg) :
    statusRequests (pollerStep e c).log + inFlight c
      = statusRequests c.log + answersRequest e c + inFlight (pollerStep e c) := by
  cases e with
  | statusResolves r =>
    cases hp : c.poller.phase with
    | awaitingStatus =>
      have hne := pollOnStatus_not_awaiting r c.app c.poller
      have hzero : inFlight (c.after (pollOnStatus r c.app c.poller)) = 0 := by
        unfold inFlight
        split
        · rename_i h
          exact absurd h hne
        · rfl
      have hstep : pollerStep (.statusResolves r) c = c.after (pollOnStatus r c.app c.poller) := by
        simp [pollerStep, hp]
      rw [hstep, hzero]
      simp [PollCfg.after, statusRequests_append, pollOnStatus_no_status, inFlight,
        answersRequest, hp]
    | awaitingDownload => simp [pollerStep, hp, inFlight, answersRequest]
    | scheduled => simp [pollerStep, hp, inFlight, answersRequest]
    | stopped => simp [pollerStep, hp, inFlight, answersRequest]
  | timerFires =>
    cases hp : c.poller.phase with
    | scheduled =>
      by_cases hc : c.poller.cancelled = true
      · simp [pollerStep, hp, PollCfg.after, poll, hc, inFlight, answersRequest]
      · simp [pollerStep, hp, PollCfg.after, poll, hc, inFlight, answersRequest,
          statusRequests_append]
        simp [statusRequests, Effect.isStatusRequest]
    | awaitingStatus => simp [pollerStep, hp, inFlight, answersRequest]
    | awaitingDownload => simp [pollerStep, hp, inFlight, answersRequest]
    | stopped => simp [pollerStep, hp, inFlight, answersRequest]
  | downloadResolves d =>
    cases hp : c.poller.phase with
    | awaitingDownload =>
      simp [pollerStep, hp, PollCfg.after, inFlight, answersRequest, statusRequests_append,
        pollOnDownload_no_status]
      simp [pollOnDownload]
    | awaitingStatus => simp [pollerStep, hp, inFlight, answersRequest]
    | scheduled => simp [pollerStep, hp, inFlight, answersRequest]
    | stopped => simp [pollerStep, hp, inFlight, answersRequest]
  | cancel =>
    cases hp : c.poller.phase <;> simp [pollerStep, hp, inFlight, answersRequest]

theorem inFlight_run (es : List PollerEvent) :
    ∀ c : PollCfg,
      statusRequests (pollerRun es c).log + inFlight c
        = statusRequests c.log + answeredCount es c + inFlight (pollerRun es c) := by
  induction es with
  | nil => intro c; simp [pollerRun, answeredCount]
  | cons e es ih =>
    intro c
    have h1 := inFlight_step e c
    have h2 := ih (pollerStep e c)
    rw [pollerRun_cons]
    simp only [answeredCount]
    omega

/-- C21: take a poller started by `handleSubmitClick`, at any point of its
life at which it awaits a status response, and a response `s` whose state
is neither `done` nor `error` (`running`, anything else, or missing), with
or without progress.  Acting on `s` leaves `submitError` and `isLoading` as
they were, issues no download request and sets exactly one timer, for
`poll`, with the interval 200.  With the cancellation flag clear, the timer
firing issues exactly one status request, to the same address, and the
poller awaits again.  At every point of every run the status requests
issued are the requests answered plus at most one in flight, and a run of
`rs.length` further non-terminal responses costs `rs.length` further status
requests and leaves the poller awaiting, whatever the length. -/
theorem poll_reschedules (st : AppState) (statusUrl downloadUrl : String)
    (es other : List PollerEvent) (s : StatusResponse) (rs : List StatusResponse)
    (hphase : (pollerRun es (startPolling statusUrl downloadUrl st)).poller.phase
      = .awaitingStatus)
    (hd : s.state ≠ some "done") (he : s.state ≠ some "error")
    (hrs : ∀ r ∈ rs, r.state ≠ some "done" ∧ r.state ≠ some "error") :
    (pollerStep (.statusResolves (.resolved s))
      (pollerRun es (startPolling statusUrl downloadUrl st))).app.submitError
      = (pollerRun es (startPolling statusUrl downloadUrl st)).app.submitError ∧
    (pollerStep (.statusResolves (.resolved s))
      (pollerRun es (startPolling statusUrl downloadUrl st))).app.isLoading
      = (pollerRun es (startPolling statusUrl downloadUrl st)).app.isLoading ∧
    (pollerStep (.statusResolves (.resolved s))
      (pollerRun es (startPolling statusUrl downloadUrl st))).log
      = (pollerRun es (startPolling statusUrl downloadUrl st)).log ++ [.setTimeout .poll 200] ∧
    ((pollerRun es (startPolling statusUrl downloadUrl st)).poller.cancelled = false →
      (pollerStep .timerFires (pollerStep (.statusResolves (.resolved s))
        (pollerRun es (startPolling statusUrl downloadUrl st)))).log
        = (pollerRun es (startPolling statusUrl downloadUrl st)).log
            ++ [.setTimeout .poll 200, .getStatus statusUrl] ∧
      (pollerStep .timerFires (pollerStep (.statusResolves (.resolved s))
        (pollerRun es (startPolling statusUrl downloadUrl st)))).poller.phase
        = .awaitingStatus ∧
      (pollerRun (answers rs) (pollerRun es (startPolling statusUrl downloadUrl st))).poller.phase
        = .awaitingStatus ∧
      statusRequests
          (pollerRun (answers rs) (pollerRun es (startPolling statusUrl downloadUrl st))).log
        = statusRequests (pollerRun es (startPolling statusUrl downloadUrl st)).log
            + rs.length) ∧
    statusRequests (pollerRun other (startPolling statusUrl downloadUrl st)).log
      = answeredCount other (startPolling statusUrl downloadUrl st)
          + inFlight (pollerRun other (startPolling statusUrl downloadUrl st)) ∧
    inFlight (pollerRun other (startPolling statusUrl downloadUrl st)) ≤ 1 := by
  have hclo := pollerRun_closure es (startPolling statusUrl downloadUrl st)
  have hurl : (pollerRun es (startPolling statusUrl downloadUrl st)).poller.fullStatusUrl
      = statusUrl := by
    rw [hclo.1]
    simp [startPolling, PollCfg.after, poll]
  have hint : (pollerRun es (startPolling statusUrl downloadUrl st)).poller.interval = 200 := by
    rw [hclo.2]
    simp [startPolling, PollCfg.after, poll]
  have hbal := inFlight_run other (startPolling statusUrl downloadUrl st)
  have hstart : statusRequests (startPolling statusUrl downloadUrl st).log = 1 ∧
      inFlight (startPolling statusUrl downloadUrl st) = 1 := by
    simp [startPolling, PollCfg.after, poll, statusRequests, inFlight, Effect.isStatusRequest]
  generalize pollerRun es (startPolling statusUrl downloadUrl st) = c at hphase hurl hint
  refine ⟨?_, ?_, ?_, ?_, ?_, ?_⟩
  · cases hpr : s.progress <;>
      simp [pollerStep, hphase, PollCfg.after, pollOnStatus, hd, he, hpr]
  · cases hpr : s.progress <;>
      simp [pollerStep, hphase, PollCfg.after, pollOnStatus, hd, he, hpr]
  · simp [pollerStep, hphase, PollCfg.after, pollOnStatus, hd, he, hint]
  · intro hflag
    obtain ⟨a1, _, a3, _⟩ := answers_run rs c hphase hflag hrs
    refine ⟨?_, ?_, a1, a3⟩
    · simp [pollerStep, hphase, PollCfg.after, pollOnStatus, hd, he, hint, poll, hflag, hurl]
    · simp [pollerStep, hphase, PollCfg.after, pollOnStatus, hd, he, poll, hflag]
  · omega
  · unfold inFlight
    split <;> omega

/-- The poller of `pollingExample` at its first response, which is
`running`, followed by two more of the same. -/
theorem poll_reschedules_witness :
    (pollerRun [] (startPolling "/status" "/download" AppState.initial)).poller.phase
      = .awaitingStatus ∧
    runningResponse.state ≠ some "done" ∧ runningResponse.state ≠ some "error" ∧
    (pollerStep (.statusResolves (.resolved runningResponse))
      (pollerRun [] (startPolling "/status" "/download" AppState.initial))).log
      = (pollerRun [] (startPolling "/status" "/download" AppState.initial)).log
          ++ [.setTimeout .poll 200] ∧
    (pollerStep .timerFires (pollerStep (.statusResolves (.resolved runningResponse))
      (pollerRun [] (startPolling "/status" "/download" AppState.initial)))).log
      = (pollerRun [] (startPolling "/status" "/download" AppState.initial)).log
          ++ [.setTimeout .poll 200, .getStatus "/status"] ∧
    statusRequests
        (pollerRun (answers [runningResponse, runningResponse])
          (pollerRun [] (startPolling "/status" "/download" AppState.initial))).log
      = statusRequests (pollerRun [] (startPolling "/status" "/download" AppState.initial)).log
          + 2 :=
  have hrs : ∀ r ∈ [runningResponse, runningResponse],
      r.state ≠ some "done" ∧ r.state ≠ some "error" := by
    intro r hr
    simp at hr
    subst hr
    decide
  have h := poll_reschedules AppState.initial "/status" "/download" [] []
    runningResponse [runningResponse, runningResponse] rfl (by decide) (by decide) hrs
  ⟨rfl, by decide, by decide, h.2.2.1, (h.2.2.2.1 rfl).1, (h.2.2.2.1 rfl).2.2.2⟩

/-! ## CSV records as a sequence -/

/-- The keys of a record after an assignment: unchanged for `__proto__` and
for a key already there, with the new key at the end otherwise. -/
theorem Row.keys_assign {ν : Type} (row : Row ν) (key : String) (w : Field ν) :
    (Row.assign row key w).map Prod.fst
      = if key = "__proto__" then row.map Prod.fst
        else if key ∈ row.map Prod.fst then row.map Prod.fst
        else row.map Prod.fst ++ [key] := by
  by_cases hp : key = "__proto__"
  · cases row with
    | nil => simp [Row.assign_nil, hp]
    | cons kv rest =>
      obtain ⟨k, u⟩ := kv
      simp [Row.assign_cons, hp]
  · simp only [hp, if_false]
    induction row with
    | nil => simp [Row.assign_nil, hp]
    | cons kv rest ih =>
      obtain ⟨k, u⟩ := kv
      rw [Row.assign_cons]
      simp only [hp, if_false]
      by_cases hk : k = key
      · simp [hk]
      · have hk2 : ¬ key = k := fun h => hk h.symm
        simp only [hk, if_false, List.map_cons, ih, List.mem_cons, hk2, false_or]
        split_ifs <;> simp

theorem forEachHeader_keys {ν : Type} [Zero ν] (parseFloat : String → Option ν)
    (values : List String) :
    ∀ (headers : List String) (index : Nat) (row : Row ν),
      (row.map Prod.fst).Nodup →
      ((forEachHeader parseFloat values headers index row).map Prod.fst).Nodup ∧
      ∀ key, key ∈ (forEachHeader parseFloat values headers index row).map Prod.fst ↔
        (key ∈ row.map Prod.fst ∨ (key ∈ headers ∧ key ≠ "__proto__")) := by
  intro headers
  induction headers with
  | nil =>
    intro index row hnd
    simp [forEachHeader, hnd]
  | cons header rest ih =>
    intro index row hnd
    unfold forEachHeader
    have hkeys := Row.keys_assign row header
      (cellValue parseFloat header (cellAt values index))
    have hnd2 : ((Row.assign row header
        (cellValue parseFloat header (cellAt values index))).map Prod.fst).Nodup := by
      rw [hkeys]
      split_ifs with h1 h2
      · exact hnd
      · exact hnd
      · exact List.Nodup.append hnd (List.nodup_singleton _) (by simpa using h2)
    obtain ⟨r1, r2⟩ := ih (index + 1) _ hnd2
    refine ⟨r1, ?_⟩
    intro key
    rw [r2 key, hkeys]
    by_cases hp : header = "__proto__"
    · simp only [hp, if_true, List.mem_cons]
      constructor
      · rintro (h | ⟨h, hne⟩)
        · exact Or.inl h
        · exact Or.inr ⟨Or.inr h, hne⟩
      · rintro (h | ⟨h | h, hne⟩)
        · exact Or.inl h
        · exact absurd h hne
        · exact Or.inr ⟨h, hne⟩
    · simp only [hp, if_false, List.mem_cons]
      by_cases hin : header ∈ row.map Prod.fst
      · simp only [hin, if_true]
        constructor
        · rintro (h | ⟨h, hne⟩)
          · exact Or.inl h
          · exact Or.inr ⟨Or.inr h, hne⟩
        · rintro (h | ⟨h | h, hne⟩)
          · exact Or.inl h
          · rw [h]; exact Or.inl hin
          · exact Or.inr ⟨h, hne⟩
      · simp only [hin, if_false, List.mem_append, List.mem_singleton]
        constructor
        · rintro ((h | h) | ⟨h, hne⟩)
          · exact Or.inl h
          · exact Or.inr ⟨Or.inl h, by rw [h]; exact hp⟩
          · exact Or.inr ⟨Or.inr h, hne⟩
        · rintro (h | ⟨h | h, hne⟩)
          · exact Or.inl (Or.inl h)
          · exact Or.inl (Or.inr h)
          · exact Or.inr ⟨h, hne⟩

/-- C22, as stated, fails: for the text whose header line names `name` and
`__proto__`, the one record has the key `name` only; the assignment to
`__proto__` stores nothing, so the record lacks a key the header line
names. -/
theorem proto_header_gives_no_key :
    csvLines "name,__proto__\nK-1,x" = ["name,__proto__", "K-1,x"] ∧
    csvHeaders "name,__proto__\nK-1,x" = ["name", "__proto__"] ∧
    parseCSV wholeNumber "name,__proto__\nK-1,x" = [[("name", .text "K-1")]] ∧
    Row.lookup ([("name", .text "K-1")] : Row Int) "__proto__" = none := by
  decide

/-- C22 (amended): `parseCSV` is a function of its text alone.  For every
text whose trimmed content has fewer than two lines it returns the empty
list; otherwise it returns exactly (number of lines - 1) records, the i-th
record being the one the header loop builds from the (i+1)-th line, in
input order; and the keys of every record are exactly the names of the
header line other than `__proto__`, each key once. -/
theorem parseCSV_records {ν : Type} [Zero ν] (parseFloat : String → Option ν)
    (csvText : String) :
    ((csvLines csvText).length < 2 → parseCSV parseFloat csvText = []) ∧
    (2 ≤ (csvLines csvText).length →
      (parseCSV parseFloat csvText).length = (csvLines csvText).length - 1 ∧
      ∀ i, (parseCSV parseFloat csvText).get? i
        = ((csvLines csvText).get? (i + 1)).map
            (fun line => forEachHeader parseFloat (cells line) (csvHeaders csvText) 0 [])) ∧
    (∀ row ∈ parseCSV parseFloat csvText,
      (row.map Prod.fst).Nodup ∧
      ∀ key, key ∈ row.map Prod.fst ↔ (key ∈ csvHeaders csvText ∧ key ≠ "__proto__")) := by
  refine ⟨?_, ?_, ?_⟩
  · intro h
    simp [parseCSV, h]
  · intro h
    have hlt : ¬ (csvLines csvText).length < 2 := by omega
    refine ⟨by simp [parseCSV, hlt], ?_⟩
    intro i
    simp only [parseCSV, hlt, if_false, List.get?_eq_getElem?, List.getElem?_map,
      List.getElem?_drop]
    rw [Nat.add_comm 1 i]
  · intro row hrow
    unfold parseCSV at hrow
    split_ifs at hrow
    · simp at hrow
    · obtain ⟨line, _, rfl⟩ := List.mem_map.mp hrow
      obtain ⟨r1, r2⟩ := forEachHeader_keys parseFloat (cells line) (csvHeaders csvText) 0 []
        (by simp)
      refine ⟨r1, ?_⟩
      intro key
      rw [r2 key]
      simp

/-- The table `sampleCsv`: four lines, three records, the second built from
the third line, each with the keys `name` and `prob`. -/
theorem parseCSV_records_witness :
    2 ≤ (csvLines sampleCsv).length ∧
    (parseCSV wholeNumber sampleCsv).length = (csvLines sampleCsv).length - 1 ∧
    (parseCSV wholeNumber sampleCsv).get? 1
      = ((csvLines sampleCsv).get? 2).map
          (fun line => forEachHeader wholeNumber (cells line) (csvHeaders sampleCsv) 0 []) ∧
    (parseCSV wholeNumber sampleCsv).get? 1
      = some [("name", .text "K-2"), ("prob", .number 0)] :=
  have h := (parseCSV_records wholeNumber sampleCsv).2.1 (by decide)
  ⟨by decide, h.1, h.2 1, by decide⟩

/-! ## The submission error message -/

/-- C23: however the initial request fails (a rejection with any status,
body, error code and error message, or a success response that lacks
`status_url` or `download_url`), the message `handleSubmitClick` sets as
`submitError` is the classified message of some error and is not the empty
string. -/
theorem submit_error_nonempty (r : SubmitResult) (st : AppState)
    (hfail : ∀ data, r = .ok data → data.status_url = none ∨ data.download_url = none) :
    (∃ err, (handleSubmitResolved r st).app.submitError = errorMessage err) ∧
    (handleSubmitResolved r st).app.submitError ≠ "" := by
  have hshape : ∃ err, handleSubmitResolved r st = catchSubmit err st := by
    cases r with
    | failed err => exact ⟨err, rfl⟩
    | ok data =>
      refine ⟨missingUrlError, ?_⟩
      rcases hfail data rfl with h | h
      · simp [handleSubmitResolved, h]
      · cases hs : data.status_url <;> simp [handleSubmitResolved, h, hs]
  obtain ⟨err, herr⟩ := hshape
  rw [herr]
  exact ⟨⟨err, rfl⟩, errorMessage_ne_empty err⟩

/-- A success response without `download_url`: the message is the one of
the exception thrown at `download_url.startsWith`. -/
theorem submit_error_nonempty_witness :
    (handleSubmitResolved
      (.ok { job_id := "abc123", status_url := some "/api/jobs/abc123/status",
             download_url := none })
      AppState.initial).app.submitError
      = "Cannot read properties of undefined (reading 'startsWith')" ∧
    (handleSubmitResolved
      (.ok { job_id := "abc123", status_url := some "/api/jobs/abc123/status",
             download_url := none })
      AppState.initial).app.submitError ≠ "" :=
  ⟨by decide,
    (submit_error_nonempty
      (.ok { job_id := "abc123", status_url := some "/api/jobs/abc123/status",
             download_url := none })
      AppState.initial
      (by intro data h; cases h; exact Or.inr rfl)).2⟩

/-! ## Teardown -/

/-- C18: the code breaks the claim, and its own comment `cancel polling on
unmount`, when the view is torn down.  The view is unmounted while the
poller of the scenario run has its 200 ms timer pending after a `running`
response: the teardown removes the keydown listener and nothing else, the
poller's flag stays clear, and when the timer fires the poller issues a
further status request; after one more `running` response it issues yet
another.  The same holds when the view is unmounted while the first status
request is in flight. -/
theorem teardown_leaves_poller_running :
    (Sys.run scenarioRun Sys.initial).pollers.map (fun p => p.phase) = [Phase.scheduled] ∧
    (unmount (Sys.run scenarioRun Sys.initial)).pollers.map (fun p => p.cancelled) = [false] ∧
    (unmount (Sys.run scenarioRun Sys.initial)).log
      = (Sys.run scenarioRun Sys.initial).log ++ [.removeEventListener] ∧
    (Sys.step (.poller 0 .timerFires) (unmount (Sys.run scenarioRun Sys.initial))).log
      = (Sys.run scenarioRun Sys.initial).log
          ++ [.removeEventListener, .getStatus (baseUrl ++ "/api/jobs/abc123/status")] ∧
    statusRequests (Sys.run
        [.poller 0 .timerFires, .poller 0 (.statusResolves (.resolved runningResponse)),
         .poller 0 .timerFires]
        (unmount (Sys.run scenarioRun Sys.initial))).log
      = statusRequests (Sys.run scenarioRun Sys.initial).log + 2 ∧
    pollingSys.pollers.map (fun p => p.phase) = [Phase.awaitingStatus] ∧
    (unmount pollingSys).pollers.map (fun p => p.cancelled) = [false] ∧
    statusRequests (Sys.run
        [.poller 0 (.statusResolves (.resolved runningResponse)), .poller 0 .timerFires]
        (unmount pollingSys)).log
      = statusRequests pollingSys.log + 1 := by
  decide

/-! ## Number values -/

set_option maxRecDepth 8000 in
/-- The number a parameter field stores is the Number value of the text and
the request carries its `Number::toString` text: `9007199254740993` is
stored as 9007199254740992, a tie goes to the even neighbour, and
`1000000000000000000000` is sent as `1e+21`. -/
theorem parseInt_number_values :
    parseInt "9007199254740993" = some 9007199254740992 ∧
    parseInt "9007199254740995" = some 9007199254740996 ∧
    (targetLimitsOnChange "9007199254740993" AppState.initial).targetLimits
      = 9007199254740992 ∧
    urlWithParams (targetLimitsOnChange "9007199254740993" AppState.initial)
      = apiUrl ++ "?limit_targets=9007199254740992&seed=7" ∧
    urlWithParams (targetLimitsOnChange "1000000000000000000000" AppState.initial)
      = apiUrl ++ "?limit_targets=1e+21&seed=7" ∧
    urlWithParams (targetLimitsOnChange "18446744073709551616" AppState.initial)
      = apiUrl ++ "?limit_targets=18446744073709552000&seed=7" := by
  decide

end ExoCAL
